import Mathlib

/-!
Shallow embedding of the weather-summary pipeline
(`dataset_analyzer.py`, `content_planner.py`, `lexicalizer.py`,
`template_realizer.py`, `summarizer.py`, plus the `ai.py` variant).

Python floats are embedded as exact rationals; a float value of the form
`num / sqrt d` (Pearson r, standard deviations, z-scores) is embedded by the
exact pair `(num, d)` so every definition stays computable.  Python `dict`s
are embedded as association lists in insertion order, `None` as `Option.none`,
and exceptions as `Except String`.
-/

/-- Calendar date as pandas exposes it to this code: year, month, day and the
day-of-year (`dt.dayofyear`).  Chronological order is the lexicographic order
on (year, dayOfYear). -/
structure MyDate where
  year : Int
  month : Nat
  day : Nat
  dayOfYear : Nat
deriving DecidableEq, Repr

def MyDate.le (a b : MyDate) : Bool :=
  a.year < b.year || (a.year == b.year && a.dayOfYear ≤ b.dayOfYear)

/-- First-match lookup in an insertion-ordered association list (Python dict
read `d[k]` / `k in d`). -/
def dictGet {α : Type} (l : List (String × α)) (k : String) : Option α :=
  (l.find? (fun p => p.1 == k)).map (fun p => p.2)

/-- Python abs on an exact rational. -/
def qabs (q : ℚ) : ℚ := if q < 0 then -q else q

/- ===================================================================
   Content planner model (content_planner.py)
   =================================================================== -/

/-- The three thresholds of the configuration object read by the planner. -/
structure Config where
  r2_threshold : ℚ
  p_value_threshold : ℚ
  extreme_threshold : ℚ
deriving DecidableEq, Repr

/-- The trend dict consumed by the planner (analyzer output, floats as ℚ;
the unused r_value field is omitted). -/
structure TrendStats where
  slope : ℚ
  r_squared : ℚ
  p_value : ℚ
  direction : String
deriving DecidableEq, Repr

structure SummaryStats where
  mean : ℚ
  std : ℚ
  min : ℚ
  max : ℚ
  coefficient_of_variation : ℚ
deriving DecidableEq, Repr

structure RangeStats where
  absolute_min : Option ℚ
  absolute_max : Option ℚ
deriving DecidableEq, Repr

structure SeasonalStats where
  summer : Option ℚ
  winter : Option ℚ
  spring : Option ℚ
  fall : Option ℚ
  range : ℚ
deriving DecidableEq, Repr

structure YearlyStats where
  yearly_mean : ℚ
  yearly_std : ℚ
  highest_year : Int
  highest_value : ℚ
  lowest_year : Int
  lowest_value : ℚ
  highest_zscore : ℚ
  lowest_zscore : ℚ
deriving DecidableEq, Repr

structure ExtremeEntry where
  value : ℚ
  date : MyDate
deriving DecidableEq, Repr

structure ExtremesStats where
  highest : Option ExtremeEntry
  lowest : Option ExtremeEntry
deriving DecidableEq, Repr

structure OptFeatures where
  avg_difference : ℚ
  is_negative : Bool
deriving DecidableEq, Repr

/-- One per-group statistics bundle as read by the planner.  The Python value
is a dict with exactly these keys; a sub-dict that the analyzer sets to `None`
is `none`. -/
structure GroupStats where
  summary : SummaryStats
  range : Option RangeStats
  trend : Option TrendStats
  seasonal : Option SeasonalStats
  yearly : Option YearlyStats
  extremes : Option ExtremesStats
  optional_features : Option OptFeatures
deriving DecidableEq, Repr

structure BasicInfo where
  start_date : MyDate
  end_date : MyDate
  n_records : Nat
  station : String
deriving DecidableEq, Repr

/-- Entry of patterns.strongest_trends. -/
structure TrendVar where
  name : String
  r_squared : ℚ
  direction : String
  slope : ℚ
deriving DecidableEq, Repr

structure MostVarP where
  variable_name : String
  cv : ℚ
deriving DecidableEq, Repr

/-- Entry of the patterns.correlations mapping as the planner reads it. -/
structure CorrEntry where
  correlation : ℚ
  relationship : String
deriving DecidableEq, Repr

structure PatternsStats where
  strongest_trends : List TrendVar
  most_variable : Option MostVarP
  correlations : List (String × CorrEntry)
deriving DecidableEq, Repr

/-- The whole statistics dict handed to the planner: the basic info, the
per-group bundles in insertion (schema) order, and the patterns dict. -/
structure Stats where
  basic : BasicInfo
  groups : List (String × GroupStats)
  patterns : Option PatternsStats
deriving DecidableEq, Repr

/-- Payload of the pattern_correlation fact; `none` embeds the empty dict
that the loop starts from.  The field `var_pair` embeds the Python key
named variables (a Lean keyword). -/
structure CorrPayload where
  var_pair : String
  correlation : ℚ
  relationship : String
deriving DecidableEq, Repr

inductive Payload where
  | basic (b : BasicInfo)
  | group (g : GroupStats)
  | trend (t : TrendStats)
  | seasonal (s : SeasonalStats)
  | yearly (y : YearlyStats)
  | extremes (e : ExtremesStats)
  | secondary (l : List (String × GroupStats))
  | patternT (l : List TrendVar)
  | corr (c : Option CorrPayload)
deriving DecidableEq, Repr

/-- ContentPlanner._is_trend_significant (content_planner.py lines 63-68). -/
def isTrendSignificant (cfg : Config) (t : Option TrendStats) : Bool :=
  match t with
  | none => false
  | some ts => decide (cfg.r2_threshold ≤ ts.r_squared) && decide (ts.p_value < cfg.p_value_threshold)

/-- ContentPlanner._is_yearly_comparison_notable (lines 70-75). -/
def isYearlyNotable (cfg : Config) (y : Option YearlyStats) : Bool :=
  match y with
  | none => false
  | some ys => decide (cfg.extreme_threshold ≤ qabs ys.highest_zscore) || decide (cfg.extreme_threshold ≤ qabs ys.lowest_zscore)

/-- The variability test of ContentPlanner._is_variable_notable (line 83). -/
def cvNotable (g : GroupStats) : Bool :=
  decide (mkRat 6 10 < g.summary.coefficient_of_variation)

/-- ContentPlanner._is_variable_notable (lines 77-95); the chained
`.get('trend', {}).get('r_squared', 0)` default is the `none => 0` branch. -/
def isVariableNotable (cfg : Config) (g : GroupStats) : Bool :=
  if cvNotable g then true
  else if decide (cfg.r2_threshold < (match g.trend with | some t => t.r_squared | none => 0)) then true
  else match g.yearly with
       | some y => decide (cfg.extreme_threshold < qabs y.highest_zscore)
       | none => false

/-- Facts appended for one primary variable (content_planner.py lines 17-35). -/
def primaryFacts (cfg : Config) (stats : Stats) (name : String) : List (String × Payload) :=
  match dictGet stats.groups name with
  | none => []
  | some g =>
    [(name ++ "_summary", Payload.group g)]
    ++ (match g.trend with
        | some t => if isTrendSignificant cfg (some t) then [(name ++ "_trend", Payload.trend t)] else []
        | none => [])
    ++ (match g.seasonal with
        | some s => [(name ++ "_seasonal", Payload.seasonal s)]
        | none => [])
    ++ (match g.yearly with
        | some y => if isYearlyNotable cfg (some y) then [(name ++ "_yearly", Payload.yearly y)] else []
        | none => [])
    ++ (match g.extremes with
        | some e => [(name ++ "_extremes", Payload.extremes e)]
        | none => [])

def secondaryNames : List String :=
  ["wind_speed", "relative_humidity", "rain", "snow", "precipitation_hours", "sunshine_duration"]

/-- The notable secondary variables (content_planner.py lines 38-41). -/
def secondaryVars (cfg : Config) (stats : Stats) : List (String × GroupStats) :=
  secondaryNames.filterMap (fun v =>
    match dictGet stats.groups v with
    | some g => if isVariableNotable cfg g then some (v, g) else none
    | none => none)

def secondaryFacts (cfg : Config) (stats : Stats) : List (String × Payload) :=
  let l := secondaryVars cfg stats
  if l.isEmpty then [] else [("other_conditions", Payload.secondary l)]

/-- One step of the max-correlation scan (content_planner.py lines 53-58):
`max_corr` starts at 0 (the `none` payload) and is replaced exactly when the
entry's signed correlation is strictly greater. -/
def corrFoldStep (acc : Option CorrPayload) (p : String × CorrEntry) : Option CorrPayload :=
  let current : ℚ := match acc with | some a => a.correlation | none => 0
  if current < p.2.correlation then some ⟨p.1, p.2.correlation, p.2.relationship⟩ else acc

def maxCorrPayload (l : List (String × CorrEntry)) : Option CorrPayload :=
  l.foldl corrFoldStep none

/-- Cross-variable facts (content_planner.py lines 48-59).  The
pattern_correlation fact is appended unconditionally once the patterns dict
is truthy. -/
def patternFacts (stats : Stats) : List (String × Payload) :=
  match stats.patterns with
  | none => []
  | some p =>
    (if p.strongest_trends.isEmpty then [] else [("pattern_trends", Payload.patternT p.strongest_trends)])
    ++ [("pattern_correlation", Payload.corr (maxCorrPayload p.correlations))]

/-- ContentPlanner.select_content (content_planner.py lines 9-61). -/
def selectContent (cfg : Config) (stats : Stats) : List (String × Payload) :=
  ("overview", Payload.basic stats.basic)
    :: (primaryFacts cfg stats "temperature" ++ primaryFacts cfg stats "precipitation"
        ++ secondaryFacts cfg stats ++ patternFacts stats)

/- ===================================================================
   Lexicalizer model (lexicalizer.py and the ai.py variant)
   =================================================================== -/

/-- Lexicalizer.describe_trend of lexicalizer.py (lines 4-33): the direction
words are increasing/decreasing for temperature and precipitation and
increased/decreased for every other kind. -/
def describeTrendLex (slope r_squared : ℚ) (var_type : String) : String :=
  if r_squared < mkRat 1 5 then "remained relatively stable"
  else
    let magnitude := qabs slope
    let direction := if 0 < slope then "increasing" else "decreasing"
    if var_type == "temperature" then
      let strength := if mkRat 1 2 < magnitude then "significant"
        else if mkRat 1 5 < magnitude then "moderate" else "slight"
      "showed " ++ strength ++ " " ++ direction
    else if var_type == "precipitation" then
      let strength := if 2 < magnitude then "substantially"
        else if 1 < magnitude then "moderately" else "slightly"
      strength ++ " " ++ direction
    else
      if 0 < slope then "increased" else "decreased"

/-- Lexicalizer.describe_trend of ai.py (lines 333-363): warming/cooling for
temperature, increasing/decreasing for precipitation, increased/decreased
otherwise. -/
def describeTrendAi (slope r_squared : ℚ) (var_type : String) : String :=
  if r_squared < mkRat 1 5 then "remained relatively stable"
  else
    let magnitude := qabs slope
    let direction := if 0 < slope then "warming" else "cooling"
    if var_type == "temperature" then
      let strength := if mkRat 1 2 < magnitude then "significant"
        else if mkRat 1 5 < magnitude then "moderate" else "slight"
      "showed " ++ strength ++ " " ++ direction
    else if var_type == "precipitation" then
      let direction2 := if 0 < slope then "increasing" else "decreasing"
      let strength := if 2 < magnitude then "substantially"
        else if 1 < magnitude then "moderately" else "slightly"
      strength ++ " " ++ direction2
    else
      if 0 < slope then "increased" else "decreased"

def monthName (m : Nat) : String :=
  match m with
  | 1 => "January"
  | 2 => "February"
  | 3 => "March"
  | 4 => "April"
  | 5 => "May"
  | 6 => "June"
  | 7 => "July"
  | 8 => "August"
  | 9 => "September"
  | 10 => "October"
  | 11 => "November"
  | 12 => "December"
  | _ => ""

def pad2 (n : Nat) : String := if n < 10 then "0" ++ toString n else toString n

/-- Lexicalizer.format_date, strftime with month name, padded day, year. -/
def formatDate (d : MyDate) : String :=
  monthName d.month ++ " " ++ pad2 d.day ++ ", " ++ toString d.year

/- ===================================================================
   Template realizer model (template_realizer.py)
   =================================================================== -/

/-- Python values flowing through the realizer: numbers (exact rationals),
strings, dates, booleans, None, dicts and lists. -/
inductive Val where
  | vnone
  | vnum (q : ℚ)
  | vstr (s : String)
  | vdate (d : MyDate)
  | vbool (b : Bool)
  | vdict (fields : List (String × Val))
  | vlist (items : List Val)

/-- Python truthiness of a value. -/
def Val.truthy : Val → Bool
  | .vnone => false
  | .vnum q => q != 0
  | .vstr s => s != ""
  | .vdate _ => true
  | .vbool b => b
  | .vdict d => !d.isEmpty
  | .vlist l => !l.isEmpty

/-- Python dict assignment `d[k] = v`: replaces in place, else appends. -/
def dictSet {α : Type} (d : List (String × α)) (k : String) (v : α) : List (String × α) :=
  match d with
  | [] => [(k, v)]
  | p :: t => if p.1 == k then (k, v) :: t else p :: dictSet t k v

/-- Subscript `d[k]` on a dict: KeyError when absent. -/
def getItem (d : List (String × Val)) (k : String) : Except String Val :=
  match dictGet d k with
  | some v => Except.ok v
  | none => Except.error ("KeyError: " ++ k)

/-- Subscripting or attribute access that needs a dict. -/
def asDict (v : Val) : Except String (List (String × Val)) :=
  match v with
  | .vdict d => Except.ok d
  | _ => Except.error "TypeError: not a dict"

def asNum (v : Val) : Except String ℚ :=
  match v with
  | .vnum q => Except.ok q
  | _ => Except.error "TypeError: not a number"

def asStr (v : Val) : Except String String :=
  match v with
  | .vstr s => Except.ok s
  | _ => Except.error "AttributeError: not a string"

def asDate (v : Val) : Except String MyDate :=
  match v with
  | .vdate d => Except.ok d
  | _ => Except.error "AttributeError: not a date"

/-- One piece of a format template: a literal run or a replacement field. -/
inductive TItem where
  | lit (s : String)
  | fld (f : String)

def listContainsSub (needle : List Char) : List Char → Bool
  | [] => needle.isEmpty
  | c :: t => needle.isPrefixOf (c :: t) || listContainsSub needle t

/-- Substring test (Python `needle in haystack` on strings). -/
def strContains (needle hay : String) : Bool :=
  needle.isEmpty || listContainsSub needle.data hay.data

/-- Rendering of a substituted value.  Decimal float formatting such as the
.1f specifiers is abstracted by the exact-rational printer; no verified
claim depends on the digits of a number. -/
def valToString : Val → String
  | .vnone => "None"
  | .vnum q => toString q
  | .vstr s => s
  | .vdate d => formatDate d
  | .vbool b => if b then "True" else "False"
  | .vdict _ => "«dict»"
  | .vlist _ => "«list»"

/-- TemplateRealizer._initialize_templates (template_realizer.py lines
11-51): the full registry, each format string split into literal runs and
replacement fields. -/
def templatesRegistry : List (String × List (List TItem)) :=
  [ ("overview",
     [[TItem.lit "This analysis covers daily weather observations from ", TItem.fld "station",
       TItem.lit ", spanning ", TItem.fld "start_date", TItem.lit " to ", TItem.fld "end_date", TItem.lit "."]]),
    ("temperature_summary",
     [[TItem.lit "Temperatures averaged ", TItem.fld "mean", TItem.lit "°C, ranging from ",
       TItem.fld "absolute_min", TItem.lit "°C to ", TItem.fld "absolute_max", TItem.lit "°C."],
      [TItem.lit "Over this period, temperatures ranged from ", TItem.fld "absolute_min",
       TItem.lit "°C to ", TItem.fld "absolute_max", TItem.lit "°C, with a mean of ",
       TItem.fld "mean", TItem.lit "°C."]]),
    ("temperature_trend",
     [[TItem.lit "Temperature ", TItem.fld "trend_desc", TItem.lit " over the study period."]]),
    ("temperature_seasonal",
     [[TItem.lit "Seasonally, summer months averaged ", TItem.fld "summer",
       TItem.lit "°C while winter months averaged ", TItem.fld "winter",
       TItem.lit "°C, showing a ", TItem.fld "range", TItem.lit "°C seasonal variation."]]),
    ("temperature_yearly",
     [[TItem.fld "highest_year", TItem.lit " was the warmest year at ", TItem.fld "highest_value",
       TItem.lit "°C, while ", TItem.fld "lowest_year", TItem.lit " was the coolest at ",
       TItem.fld "lowest_value", TItem.lit "°C."]]),
    ("temperature_extremes",
     [[TItem.lit "The hottest temperature recorded was ", TItem.fld "highest_value",
       TItem.lit "°C on ", TItem.fld "highest_date", TItem.lit ", and the coldest was ",
       TItem.fld "lowest_value", TItem.lit "°C on ", TItem.fld "lowest_date", TItem.lit "."]]),
    ("precipitation_summary",
     [[TItem.lit "Precipitation totaled ", TItem.fld "total",
       TItem.lit " mm over the period, averaging ", TItem.fld "annual_avg", TItem.lit " mm annually."],
      [TItem.lit "Annual precipitation averaged ", TItem.fld "annual_avg",
       TItem.lit " mm, with a total of ", TItem.fld "total", TItem.lit " mm recorded."]]),
    ("precipitation_trend",
     [[TItem.lit "Precipitation ", TItem.fld "trend_desc", TItem.lit " over time."]]),
    ("precipitation_extremes",
     [[TItem.lit "The heaviest single-day precipitation was ", TItem.fld "highest_value",
       TItem.lit " mm on ", TItem.fld "highest_date", TItem.lit "."]]),
    ("other_conditions_combined",
     [[TItem.lit "Other conditions included ", TItem.fld "conditions_desc", TItem.lit "."]]),
    ("pattern_trends_multi",
     [[TItem.lit "Notably, ", TItem.fld "var1", TItem.lit " and ", TItem.fld "var2",
       TItem.lit " both showed strong trends over the period."]]),
    ("pattern_correlation",
     [[TItem.lit "The variables ", TItem.fld "vars",
       TItem.lit " were the strongest correlated, having a ", TItem.fld "relationship",
       TItem.lit " relationship."]]) ]

/-- str.format over the prepared dict: every replacement field is looked up;
a missing field is the KeyError that realize catches. -/
def formatT (t : List TItem) (d : List (String × Val)) : Option String :=
  match t with
  | [] => some ""
  | TItem.lit s :: rest => (formatT rest d).map (fun r => s ++ r)
  | TItem.fld f :: rest =>
    match dictGet d f with
    | none => none
    | some v => (formatT rest d).map (fun r => valToString v ++ r)

/-- Python str.replace on single characters (used for keys like a_and_b). -/
def strReplaceChar (s : String) (a b : Char) : String :=
  String.mk (s.data.map (fun c => if c = a then b else c))

/-- The date-formatting prologue of TemplateRealizer._prepare_data (lines
72-75). -/
def prepareDates (formatted : List (String × Val)) : Except String (List (String × Val)) := do
  let f1 ← match dictGet formatted "start_date" with
    | some v => do
        let d0 ← asDate v
        pure (dictSet formatted "start_date" (Val.vstr (formatDate d0)))
    | none => pure formatted
  match dictGet f1 "end_date" with
  | some v => do
      let d0 ← asDate v
      pure (dictSet f1 "end_date" (Val.vstr (formatDate d0)))
  | none => pure f1

/-- TemplateRealizer._prepare_data (template_realizer.py lines 67-130).
The incoming payload is copied when it is a dict (else the working dict is
empty), dates are reformatted, then the fact-kind-specific fields are
derived.  Every Python subscript that can raise is an `Except.error`:
errors raised here escape realize, whose try block only guards format. -/
def prepareData (kind : String) (data : Val) : Except String (List (String × Val)) := do
  let dd : Option (List (String × Val)) := match data with | .vdict d => some d | _ => none
  let f0 := dd.getD []
  let f1 ← prepareDates f0
  -- temperature_summary (lines 78-85)
  let f2 ←
    if kind == "temperature_summary" then do
      let d0 ← asDict data
      let sd ← asDict (← getItem d0 "summary")
      let rangeTruthy := (dictGet d0 "range").map Val.truthy |>.getD false
      if rangeTruthy then do
        let rd ← asDict ((dictGet d0 "range").getD Val.vnone)
        let smin ← getItem sd "min"
        let vmin := (dictGet rd "absolute_min").getD smin
        let smax ← getItem sd "max"
        let vmax := (dictGet rd "absolute_max").getD smax
        let m ← getItem sd "mean"
        pure (dictSet (dictSet (dictSet f1 "absolute_min" vmin) "absolute_max" vmax) "mean" m)
      else do
        let vmin ← getItem sd "min"
        let vmax ← getItem sd "max"
        let m ← getItem sd "mean"
        pure (dictSet (dictSet (dictSet f1 "absolute_min" vmin) "absolute_max" vmax) "mean" m)
    else pure f1
  -- temperature_trend (lines 88-91)
  let f3 ←
    if kind == "temperature_trend" then do
      let d0 ← asDict data
      let s ← asNum (← getItem d0 "slope")
      let r ← asNum (← getItem d0 "r_squared")
      pure (dictSet f2 "trend_desc" (Val.vstr (describeTrendLex s r "temperature")))
    else pure f2
  -- precipitation_summary (lines 94-97)
  let f4 ←
    if kind == "precipitation_summary" then do
      let d0 ← asDict data
      let sd ← asDict (← getItem d0 "summary")
      let m ← asNum (← getItem sd "mean")
      let nrec ← asNum ((dictGet f3 "n_records").getD (Val.vnum 1826))
      let fa := dictSet f3 "total" (Val.vnum (m * nrec))
      pure (dictSet fa "annual_avg" (Val.vnum (m * mkRat 1461 4)))
    else pure f3
  -- precipitation_trend (lines 100-103)
  let f5 ←
    if kind == "precipitation_trend" then do
      let d0 ← asDict data
      let s ← asNum (← getItem d0 "slope")
      let r ← asNum (← getItem d0 "r_squared")
      pure (dictSet f4 "trend_desc" (Val.vstr (describeTrendLex s r "precipitation")))
    else pure f4
  -- extremes (substring test on the fact kind, lines 106-112)
  let f6 ←
    if strContains "extremes" kind then do
      let d0 ← asDict data
      let fa ←
        match dictGet d0 "highest" with
        | some hv => do
            let hd ← asDict hv
            let v ← getItem hd "value"
            let dt ← asDate (← getItem hd "date")
            pure (dictSet (dictSet f5 "highest_value" v) "highest_date" (Val.vstr (formatDate dt)))
        | none => pure f5
      match dictGet d0 "lowest" with
      | some lv => do
          let ld ← asDict lv
          let v ← getItem ld "value"
          let dt ← asDate (← getItem ld "date")
          pure (dictSet (dictSet fa "lowest_value" v) "lowest_date" (Val.vstr (formatDate dt)))
      | none => pure fa
    else pure f5
  -- pattern_correlation (lines 125-128)
  if kind == "pattern_correlation" then do
    let d0 ← asDict data
    let _ ← getItem d0 "correlation"
    let rel ← getItem d0 "relationship"
    let relStr := match rel with
      | .vstr s => if s == "inverse" then "inverse" else "positive"
      | _ => "positive"
    let vv ← getItem d0 "variables"
    let vs ← asStr vv
    let fa := dictSet f6 "relationship" (Val.vstr relStr)
    pure (dictSet fa "vars" (Val.vstr (strReplaceChar vs '_' ' ')))
  else pure f6

/-- TemplateRealizer.realize (lines 53-65).  The template selector `pick`
embeds random.choice; an unknown fact kind returns empty text before any
template is chosen; a KeyError from format is caught and yields empty text,
while an error from prepare propagates. -/
def realizeM (pick : List (List TItem) → List TItem) (kind : String) (data : Val) :
    Except String String :=
  match dictGet templatesRegistry kind with
  | none => Except.ok ""
  | some ts =>
    let t := pick ts
    match prepareData kind data with
    | Except.error e => Except.error e
    | Except.ok d =>
      match formatT t d with
      | none => Except.ok ""
      | some s => Except.ok s

/-- The per-variable phrase of realize_combined_conditions (lines 136-150). -/
def secondaryDesc (var_name : String) (mean_val : ℚ) : String :=
  if var_name == "wind_speed" then "wind speed averaging " ++ toString mean_val ++ " kmh"
  else if var_name == "rain" then "rain averaging " ++ toString mean_val ++ " mm"
  else if var_name == "snow" then "snow averaging " ++ toString mean_val ++ " cm"
  else if var_name == "relative_humidity" then
    "relative humidity averaging " ++ toString mean_val ++ "%"
  else strReplaceChar var_name '_' ' ' ++ " averaging " ++ toString mean_val

/-- TemplateRealizer.realize_combined_conditions (lines 132-157); the
payload is the list of (name, bundle) pairs.  An empty list reaches
descriptions[-1] and is the IndexError of the source. -/
def realizeCombined (data : Val) : Except String String := do
  let items ← match data with
    | .vlist l => Except.ok l
    | _ => Except.error "TypeError: not iterable"
  let descriptions ← items.mapM (fun it => do
    match it with
    | .vlist [Val.vstr nm, vd] => do
        let sd ← asDict (← getItem (← asDict vd) "summary")
        let m ← asNum (← getItem sd "mean")
        pure (secondaryDesc nm m)
    | _ => Except.error "TypeError: cannot unpack")
  match descriptions with
  | [] => Except.error "IndexError: list index out of range"
  | [d1] => Except.ok ("Other conditions included " ++ d1 ++ ".")
  | [d1, d2] => Except.ok ("Other conditions included " ++ d1 ++ " and " ++ d2 ++ ".")
  | ds => Except.ok ("Other conditions included " ++ String.intercalate ", " ds.dropLast
      ++ ", and " ++ (ds.getLast?.getD "") ++ ".")

/-- The realization loop and final join of Summarizer.generate_summary
(summarizer.py lines 66-79): each fact renders through realize (or
realize_combined_conditions for other_conditions), only truthy sentences
are kept, and the kept sentences are joined with single spaces. -/
def summarySentences (pick : List (List TItem) → List TItem) :
    List (String × Val) → List String → Except String (List String)
  | [], acc => Except.ok acc
  | f :: t, acc =>
    match (if f.1 == "other_conditions" then realizeCombined f.2 else realizeM pick f.1 f.2) with
    | Except.error e => Except.error e
    | Except.ok s => summarySentences pick t (if s == "" then acc else acc ++ [s])

def generateSummaryM (pick : List (List TItem) → List TItem)
    (content : List (String × Val)) : Except String String :=
  (summarySentences pick content []).map (String.intercalate " ")

/- ===================================================================
   Dataset analyzer model (dataset_analyzer.py)
   =================================================================== -/

/-- The sanitized observation table: the parsed date column and the named
numeric columns, all aligned by row index. -/
structure DataFrame where
  dates : List MyDate
  cols : List (String × List ℚ)

def listMean (xs : List ℚ) : Option ℚ :=
  if xs.isEmpty then none else some (xs.sum / (xs.length : ℚ))

/-- pandas Series.max (none embeds the NaN of an empty column). -/
def listMax : List ℚ → Option ℚ
  | [] => none
  | x :: t => some (t.foldl (fun a b => if a < b then b else a) x)

def listMin : List ℚ → Option ℚ
  | [] => none
  | x :: t => some (t.foldl (fun a b => if b < a then b else a) x)

/-- The square of pandas Series.std (ddof=1): `none` embeds the NaN that
std returns on fewer than two rows. -/
def sampleVariance (xs : List ℚ) : Option ℚ :=
  if xs.length < 2 then none
  else
    let m := xs.sum / (xs.length : ℚ)
    some ((xs.map (fun x => (x - m) ^ 2)).sum / ((xs.length : ℚ) - 1))

/-- The coefficient_of_variation float of dataset_analyzer.py line 51,
as the exact representation of `std/mean if mean != 0 else 0`:
`ofStdMean v m` denotes `sqrt v / m` with `m` nonzero by construction, and
`nan` is the NaN produced when mean is itself NaN (empty column: NaN != 0
is True in Python, so the else branch is not taken). -/
inductive CVA where
  | zero
  | nan
  | ofStdMean (variance : Option ℚ) (mean : ℚ)
deriving DecidableEq, Repr

/-- Whether a cv representation denotes the float 0.0 exactly
(`sqrt v / m = 0` iff `v = 0`, the divisor being nonzero by construction). -/
def CVA.isExactZero : CVA → Bool
  | .zero => true
  | .nan => false
  | .ofStdMean (some v) _ => v == 0
  | .ofStdMean none _ => false

/-- Line 51 of dataset_analyzer.py at the level of the float values std and
mean it combines: `std/mean if mean != 0 else 0`. -/
def summarizeCV (std mean : ℚ) : ℚ :=
  if mean ≠ 0 then std / mean else 0

/-- The summary dict of DatasetAnalyzer._summarize_primary (lines 44-52);
std is carried as its square. -/
structure SummaryA where
  mean : Option ℚ
  variance : Option ℚ
  min : Option ℚ
  max : Option ℚ
  cv : CVA
deriving Repr

def summarizePrimary (xs : List ℚ) : SummaryA :=
  let m := listMean xs
  { mean := m
    variance := sampleVariance xs
    min := listMin xs
    max := listMax xs
    cv := match m with
      | some mq => if mq ≠ 0 then CVA.ofStdMean (sampleVariance xs) mq else CVA.zero
      | none => CVA.nan }

def dateMinL : List MyDate → Option MyDate
  | [] => none
  | d :: t => some (t.foldl (fun a b => if MyDate.le b a then b else a) d)

def dateMaxL : List MyDate → Option MyDate
  | [] => none
  | d :: t => some (t.foldl (fun a b => if MyDate.le a b then b else a) d)

/-- DatasetAnalyzer._compute_basic_info (lines 35-42). -/
structure BasicA where
  start_date : Option MyDate
  end_date : Option MyDate
  n_records : Nat
  station : String
deriving Repr

def computeBasicInfo (df : DataFrame) (station : String) : BasicA :=
  { start_date := dateMinL df.dates
    end_date := dateMaxL df.dates
    n_records := df.dates.length
    station := station }

def strLower (s : String) : String := String.mk (s.data.map Char.toLower)

/-- Python `tok in col.lower()`. -/
def hasTok (tok c : String) : Bool := strContains tok (strLower c)

/-- The range dict of _compute_range: the outer Option is key presence, the
inner one the NaN of an empty column. -/
structure RangeA where
  absolute_min : Option (Option ℚ)
  absolute_max : Option (Option ℚ)
deriving DecidableEq, Repr

/-- DatasetAnalyzer._compute_range (lines 54-67). -/
def computeRange (df : DataFrame) (supporting : List String) : Option RangeA :=
  if supporting.isEmpty then none
  else
    let r := supporting.foldl (fun (acc : RangeA) c =>
      match dictGet df.cols c with
      | none => acc
      | some xs =>
        if hasTok "min" c then { acc with absolute_min := some (listMin xs) }
        else if hasTok "max" c then { acc with absolute_max := some (listMax xs) }
        else acc) ⟨none, none⟩
    if r = ⟨none, none⟩ then none else some r

def allEqQ : List ℚ → Bool
  | [] => true
  | x :: t => t.all (fun y => y == x)

structure LinRegA where
  slope : ℚ
  intercept : ℚ
  rSquared : ℚ
deriving Repr

/-- scipy.stats.linregress.  Its identical-x guard is
`np.amax(x) == np.amin(x) and len(x) > 1`, so it raises (the `none` here)
exactly when all x values are identical AND there is more than one point;
an empty input also raises (inside np.amax).  A single point passes the
guard and yields slope nan (the 0/0 of the zero x-variance, embedded here
as the total-division value 0; no verified claim reads the slope or
intercept of a singleton regression) and r = 0.0 exactly, since the
r denominator sqrt(ssxx*ssyy) is 0.  In general slope = ssxy/ssxx and
r = ssxy/sqrt(ssxx*ssyy) with r set to 0 when the denominator is 0 (in
every reachable non-raising case that is ssyy = 0), so r² is the exact
rational ssxy²/(ssxx*ssyy).  The p_value comes from scipy-internal
t-distribution machinery outside this repository and is not represented;
no claim reads it from the analyzer. -/
def linregress (xs ys : List ℚ) : Option LinRegA :=
  if xs.isEmpty || (allEqQ xs && decide (1 < xs.length)) then none
  else
    let n : ℚ := xs.length
    let xm := xs.sum / n
    let ym := ys.sum / n
    let ssxx := (xs.map (fun x => (x - xm) ^ 2)).sum
    let ssyy := (ys.map (fun y => (y - ym) ^ 2)).sum
    let ssxy := (List.zipWith (fun x y => (x - xm) * (y - ym)) xs ys).sum
    let slope := ssxy / ssxx
    some { slope := slope
           intercept := ym - slope * xm
           rSquared := if ssyy == 0 then 0 else ssxy ^ 2 / (ssxx * ssyy) }

/-- The fractional-year time index of _detect_trend (line 72):
year + dayofyear/365.25. -/
def yearNumeric (d : MyDate) : ℚ := (d.year : ℚ) + (d.dayOfYear : ℚ) / mkRat 1461 4

structure TrendA where
  slope : ℚ
  r_squared : ℚ
  direction : String
deriving Repr

/-- DatasetAnalyzer._detect_trend (lines 69-85): `none` is the ValueError
that scipy raises out of it. -/
def detectTrend (df : DataFrame) (xs : List ℚ) : Option TrendA :=
  (linregress (df.dates.map yearNumeric) xs).map (fun l =>
    ({ slope := l.slope
       r_squared := l.rSquared
       direction := if (0 : ℚ) < l.slope then "increasing" else "decreasing" } : TrendA))

/-- The season classifier of _compute_seasonal_patterns (lines 89-97). -/
def getSeason (m : Nat) : String :=
  if m == 12 || m == 1 || m == 2 then "winter"
  else if m == 3 || m == 4 || m == 5 then "spring"
  else if m == 6 || m == 7 || m == 8 then "summer"
  else "fall"

def seasonVals (rows : List (MyDate × ℚ)) (s : String) : List ℚ :=
  (rows.filter (fun r => getSeason r.1.month == s)).map (fun r => r.2)

structure SeasonalA where
  summer : Option ℚ
  winter : Option ℚ
  spring : Option ℚ
  fall : Option ℚ
  range : ℚ
deriving Repr

/-- DatasetAnalyzer._compute_seasonal_patterns (lines 87-111): the groupby
produces one mean per season present in the data (keys in alphabetical
order, which the max/min of the range do not depend on). -/
def computeSeasonal (df : DataFrame) (xs : List ℚ) : Option SeasonalA :=
  let rows := df.dates.zip xs
  let means := ["fall", "spring", "summer", "winter"].filterMap
    (fun s => listMean (seasonVals rows s))
  if means.isEmpty then none
  else some
    { summer := listMean (seasonVals rows "summer")
      winter := listMean (seasonVals rows "winter")
      spring := listMean (seasonVals rows "spring")
      fall := listMean (seasonVals rows "fall")
      range := (listMax means).getD 0 - (listMin means).getD 0 }

/-- A yearly z-score float: exactly zero (the guarded branch of lines
133-134) or the exact representation num/sqrt(variance). -/
inductive ZA where
  | zero
  | div (num : ℚ) (variance : ℚ)
deriving DecidableEq, Repr

structure YearlyA where
  yearly_mean : ℚ
  yearly_variance : Option ℚ
  highest_year : Int
  highest_value : ℚ
  lowest_year : Int
  lowest_value : ℚ
  highest_zscore : ZA
  lowest_zscore : ZA
deriving Repr

/-- Ascending insertion keeping one copy per year (pandas groupby sorts its
keys). -/
def insertSortedInt (x : Int) : List Int → List Int
  | [] => [x]
  | y :: t => if x < y then x :: y :: t else if x == y then y :: t else y :: insertSortedInt x t

def yearKeys (ds : List MyDate) : List Int :=
  ds.foldl (fun acc d => insertSortedInt d.year acc) []

def yearVals (rows : List (MyDate × ℚ)) (y : Int) : List ℚ :=
  (rows.filter (fun r => r.1.year == y)).map (fun r => r.2)

/-- pandas Series.idxmax over an index-ordered series: the first index
attaining the maximum (a strictly greater value replaces the running best). -/
def seriesIdxmax : List (Int × ℚ) → Option (Int × ℚ)
  | [] => none
  | p :: t => some (t.foldl (fun a b => if a.2 < b.2 then b else a) p)

def seriesIdxmin : List (Int × ℚ) → Option (Int × ℚ)
  | [] => none
  | p :: t => some (t.foldl (fun a b => if b.2 < a.2 then b else a) p)

/-- DatasetAnalyzer._compute_yearly_comparisons (lines 113-135): per-year
means keyed by calendar year; the z-scores use `std > 0`, which is False
both for zero variance and for the NaN std of a single year, so the
degenerate z-score is exactly 0. -/
def computeYearly (df : DataFrame) (xs : List ℚ) : Option YearlyA :=
  let rows := df.dates.zip xs
  let yearly : List (Int × ℚ) :=
    (yearKeys df.dates).filterMap (fun y => (listMean (yearVals rows y)).map (fun m => (y, m)))
  match seriesIdxmax yearly, seriesIdxmin yearly with
  | some (hy, hv), some (ly, lv) =>
    let meanVals := yearly.map (fun p => p.2)
    let mean_val := meanVals.sum / (meanVals.length : ℚ)
    let var_val := sampleVariance meanVals
    let zOf : ℚ → ZA := fun v =>
      match var_val with
      | some s => if 0 < s then ZA.div (v - mean_val) s else ZA.zero
      | none => ZA.zero
    some { yearly_mean := mean_val
           yearly_variance := var_val
           highest_year := hy
           highest_value := hv
           lowest_year := ly
           lowest_value := lv
           highest_zscore := zOf hv
           lowest_zscore := zOf lv }
  | _, _ => none

/-- First-occurrence argmax with its index (pandas Series.idxmax over row
order). -/
def idxmaxGo : List ℚ → Nat → ℚ → Nat → Nat × ℚ
  | [], bi, bv, _ => (bi, bv)
  | x :: t, bi, bv, i => if bv < x then idxmaxGo t i x (i + 1) else idxmaxGo t bi bv (i + 1)

def idxmaxL : List ℚ → Option (Nat × ℚ)
  | [] => none
  | x :: t => some (idxmaxGo t 0 x 1)

def idxminGo : List ℚ → Nat → ℚ → Nat → Nat × ℚ
  | [], bi, bv, _ => (bi, bv)
  | x :: t, bi, bv, i => if x < bv then idxminGo t i x (i + 1) else idxminGo t bi bv (i + 1)

def idxminL : List ℚ → Option (Nat × ℚ)
  | [] => none
  | x :: t => some (idxminGo t 0 x 1)

structure ExtremeA where
  value : ℚ
  date : Option MyDate
deriving DecidableEq, Repr

structure ExtremesA where
  highest : Option ExtremeA
  lowest : Option ExtremeA
deriving DecidableEq, Repr

/-- The column _identify_extremes resolves for the highest value (line 142):
the first supporting column whose lowercased name contains max, else the
primary column. -/
def resolveMaxCol (primary : String) (supporting : List String) : String :=
  (supporting.find? (fun c => hasTok "max" c)).getD primary

def resolveMinCol (primary : String) (supporting : List String) : String :=
  (supporting.find? (fun c => hasTok "min" c)).getD primary

/-- DatasetAnalyzer._identify_extremes (lines 137-159).  idxmax of an empty
column raises in pandas; that case is only reachable on an empty frame,
which already aborts analyze inside _detect_trend, and is embedded here as
an absent entry. -/
def identifyExtremes (df : DataFrame) (primary : String) (supporting : List String) :
    Option ExtremesA :=
  let highest := match dictGet df.cols (resolveMaxCol primary supporting) with
    | none => none
    | some xs => (idxmaxL xs).map (fun p => ExtremeA.mk p.2 df.dates[p.1]?)
  let lowest := match dictGet df.cols (resolveMinCol primary supporting) with
    | none => none
    | some xs => (idxminL xs).map (fun p => ExtremeA.mk p.2 df.dates[p.1]?)
  if highest.isNone && lowest.isNone then none else some ⟨highest, lowest⟩

structure OptA where
  avg_difference : ℚ
  is_negative : Bool
deriving Repr

/-- DatasetAnalyzer._analyze_optional_features (lines 161-179): each present
comparison column overwrites the single real_feel_diff entry; a NaN mean
difference (empty frame) fails the `> 5` test. -/
def analyzeOptional (df : DataFrame) (primary : String) (comparison : List String) :
    Option OptA :=
  comparison.foldl (fun acc c =>
    match dictGet df.cols c, dictGet df.cols primary with
    | some cs, some ps =>
      let diffs := List.zipWith (fun a b => a - b) cs ps
      match listMean (diffs.map qabs) with
      | some d =>
        if 5 < d then some ⟨d, decide (((listMean diffs).getD 0) < 0)⟩ else acc
      | none => acc
    | _, _ => acc) none

/-- Whether a cv float is strictly greater than the plain rational q.
`ofStdMean (some v) m` denotes `sqrt v / m` with `v ≥ 0` (a sample
variance) and `m ≠ 0` by construction; any NaN comparison is False. -/
def CVA.gtQ : CVA → ℚ → Bool
  | .zero, q => decide (q < 0)
  | .nan, _ => false
  | .ofStdMean none _, _ => false
  | .ofStdMean (some v) m, q =>
    if 0 < m then
      if q < 0 then true
      else if q == 0 then decide (0 < v)
      else decide (q ^ 2 * m ^ 2 < v)
    else
      if 0 ≤ q then false
      else decide (v < q ^ 2 * m ^ 2)

/-- Whether one cv float is strictly greater than another (same denotation,
NaN comparisons False). -/
def CVA.gtC : CVA → CVA → Bool
  | x, .zero => CVA.gtQ x 0
  | .zero, .ofStdMean (some v) m => decide (m < 0) && decide (0 < v)
  | .zero, _ => false
  | .nan, _ => false
  | .ofStdMean none _, _ => false
  | .ofStdMean _ _, .nan => false
  | .ofStdMean _ _, .ofStdMean none _ => false
  | .ofStdMean (some a) m, .ofStdMean (some b) n =>
    if a == 0 then decide (n < 0) && decide (0 < b)
    else if 0 < m then
      if b == 0 then true
      else if n < 0 then true
      else decide (b * m ^ 2 < a * n ^ 2)
    else
      if b == 0 then false
      else if 0 < n then false
      else decide (a * n ^ 2 < b * m ^ 2)

/-- A pandas Pearson correlation float in exact form: it denotes
num / sqrt denSq with denSq > 0 by construction; `none` stands for the NaN
of a zero-variance pair. -/
structure PearsonRep where
  num : ℚ
  denSq : ℚ
deriving DecidableEq, Repr

/-- df[a].corr(df[b]): centered cross-product sum over the product of the
centered square sums. -/
def pearsonRep (xs ys : List ℚ) : Option PearsonRep :=
  let xm := xs.sum / (xs.length : ℚ)
  let ym := ys.sum / (ys.length : ℚ)
  let num := (List.zipWith (fun x y => (x - xm) * (y - ym)) xs ys).sum
  let dsq := ((xs.map (fun x => (x - xm) ^ 2)).sum) * ((ys.map (fun y => (y - ym) ^ 2)).sum)
  if dsq == 0 then none else some ⟨num, dsq⟩

/-- `abs(corr) > 0.5` on the exact representation:
|num/sqrt d| > 1/2 iff d < 4 num². -/
def pearsonStrong (p : Option PearsonRep) : Bool :=
  match p with
  | none => false
  | some r => decide (r.denSq < 4 * r.num ^ 2)

/-- One variable group of the schema: primary, supporting and comparison
column names. -/
structure GroupCfg where
  primary : String
  supporting : List String
  comparison : List String
deriving DecidableEq, Repr

structure CorrEntryA where
  correlation : PearsonRep
  relationship : String
deriving DecidableEq, Repr

structure MostVarA where
  variable_name : String
  cv : CVA
deriving Repr

structure PatternsA where
  strongest_trends : List TrendVar
  most_variable : Option MostVarA
  correlations : List (String × CorrEntryA)
deriving Repr

/-- The per-group bundle dict built by analyze (lines 21-29); trend is
always a dict here because a failing regression aborts the whole analyze
call before the bundle exists. -/
structure GroupA where
  summary : SummaryA
  range : Option RangeA
  trend : TrendA
  seasonal : Option SeasonalA
  yearly : Option YearlyA
  extremes : Option ExtremesA
  optional_features : Option OptA
deriving Repr

/-- Stable descending insertion by r² (list.sort with reverse=True). -/
def insertDescTV (x : TrendVar) : List TrendVar → List TrendVar
  | [] => [x]
  | y :: t => if y.r_squared < x.r_squared then x :: y :: t else y :: insertDescTV x t

def sortDescTV (l : List TrendVar) : List TrendVar := l.foldr insertDescTV []

/-- Pattern 1 of _detect_cross_variable_patterns (lines 185-201): groups
with r² > 0.3, sorted by descending r², top two; the empty list embeds the
absent key. -/
def strongestTrends (schema : List (String × GroupCfg)) (results : List (String × GroupA)) :
    List TrendVar :=
  let trending := schema.filterMap (fun p =>
    match dictGet results p.1 with
    | some g =>
      if mkRat 3 10 < g.trend.r_squared then
        some (TrendVar.mk p.1 g.trend.r_squared g.trend.direction g.trend.slope)
      else none
    | none => none)
  if trending.isEmpty then [] else (sortDescTV trending).take 2

/-- Pattern 2 (lines 203-216): the group of maximal cv (Python max keeps the
first maximum), reported only when its cv exceeds 0.5. -/
def mostVariable (schema : List (String × GroupCfg)) (results : List (String × GroupA)) :
    Option MostVarA :=
  let variability : List (String × CVA) := schema.filterMap (fun p =>
    (dictGet results p.1).map (fun g => (p.1, g.summary.cv)))
  match variability with
  | [] => none
  | v :: t =>
    let best := t.foldl (fun a b => if CVA.gtC b.2 a.2 then b else a) v
    if CVA.gtQ best.2 (mkRat 1 2) then some ⟨best.1, best.2⟩ else none

/-- The ordered index pairs i < j of the double loop (lines 221-222). -/
def orderedPairs {α : Type} : List α → List (α × α)
  | [] => []
  | x :: t => t.map (fun y => (x, y)) ++ orderedPairs t

/-- One iteration of the correlation loop (pattern 3, lines 218-234): the
entry it would store, if the pair has both groups analyzed, both primary
columns present, and a strong correlation. -/
def corrEntryOf (df : DataFrame) (results : List (String × GroupA))
    (p : (String × GroupCfg) × (String × GroupCfg)) : Option (String × CorrEntryA) :=
  if (dictGet results p.1.1).isSome && (dictGet results p.2.1).isSome then
    match dictGet df.cols p.1.2.primary, dictGet df.cols p.2.2.primary with
    | some xs, some ys =>
      match pearsonRep xs ys with
      | some r =>
        if pearsonStrong (some r) then
          some (p.1.1 ++ "_and_" ++ p.2.1,
            CorrEntryA.mk r (if r.num < 0 then "inverse" else "direct"))
        else none
      | none => none
    | _, _ => none
  else none

def corrDict (df : DataFrame) (schema : List (String × GroupCfg))
    (results : List (String × GroupA)) : List (String × CorrEntryA) :=
  (orderedPairs schema).foldl (fun acc p =>
    match corrEntryOf df results p with
    | some e => dictSet acc e.1 e.2
    | none => acc) []

/-- DatasetAnalyzer._detect_cross_variable_patterns (lines 181-236). -/
def detectCrossPatterns (df : DataFrame) (schema : List (String × GroupCfg))
    (results : List (String × GroupA)) : PatternsA :=
  { strongest_trends := strongestTrends schema results
    most_variable := mostVariable schema results
    correlations := corrDict df schema results }

/-- The bundle dict of one variable group (analyze lines 21-29), evaluated
in source order; the regression ValueError aborts the construction. -/
def buildGroup (df : DataFrame) (gc : GroupCfg) (xs : List ℚ) : Except String GroupA :=
  match detectTrend df xs with
  | none => Except.error "ValueError: Cannot calculate a linear regression if all x values are identical"
  | some t => Except.ok
    { summary := summarizePrimary xs
      range := computeRange df gc.supporting
      trend := t
      seasonal := computeSeasonal df xs
      yearly := computeYearly df xs
      extremes := identifyExtremes df gc.primary gc.supporting
      optional_features := analyzeOptional df gc.primary gc.comparison }

/-- The group loop of analyze (lines 17-29): a group is analyzed only when
its primary column exists; an exception in a sub-computation propagates. -/
def analyzeGroups (df : DataFrame) (schema : List (String × GroupCfg)) :
    Except String (List (String × GroupA)) :=
  schema.foldlM (fun acc p =>
    match dictGet df.cols p.2.primary with
    | none => pure acc
    | some xs => do
      let g ← buildGroup df p.2 xs
      pure (acc ++ [(p.1, g)])) []

structure ResultsA where
  basic : BasicA
  groups : List (String × GroupA)
  patterns : PatternsA
deriving Repr

/-- DatasetAnalyzer.analyze (lines 10-33). -/
def analyze (df : DataFrame) (station : String) (schema : List (String × GroupCfg)) :
    Except String ResultsA := do
  let gs ← analyzeGroups df schema
  pure { basic := computeBasicInfo df station
         groups := gs
         patterns := detectCrossPatterns df schema gs }

/- ===================================================================
   Claim-side (spec-worded) definitions and concrete inputs
   =================================================================== -/

/-- describe_trend exactly as claim C3 words it: stable phrase below 0.2,
strength tiers 0.5/0.2 for temperature and 2/1 for precipitation, no tier
otherwise, direction warming/cooling for temperature and
increasing/decreasing for every other kind. -/
def describeTrendClaimed (slope r_squared : ℚ) (var_type : String) : String :=
  if r_squared < mkRat 1 5 then "remained relatively stable"
  else
    let magnitude := qabs slope
    if var_type == "temperature" then
      let strength := if mkRat 1 2 < magnitude then "significant"
        else if mkRat 1 5 < magnitude then "moderate" else "slight"
      "showed " ++ strength ++ " " ++ (if 0 < slope then "warming" else "cooling")
    else if var_type == "precipitation" then
      let strength := if 2 < magnitude then "substantially"
        else if 1 < magnitude then "moderately" else "slightly"
      strength ++ " " ++ (if 0 < slope then "increasing" else "decreasing")
    else
      if 0 < slope then "increasing" else "decreasing"

/-- The temperature strength tier of claim C3 (thresholds 0.5 / 0.2). -/
def tierTemp (slope : ℚ) : String :=
  if mkRat 1 2 < qabs slope then "significant"
  else if mkRat 1 5 < qabs slope then "moderate" else "slight"

/-- The precipitation strength tier of claim C3 (thresholds 2 / 1). -/
def tierPrec (slope : ℚ) : String :=
  if 2 < qabs slope then "substantially"
  else if 1 < qabs slope then "moderately" else "slightly"

/-- The pair of maximum correlation strength as claim C1 words it: scan the
mapping keeping the maximum of the absolute correlation value. -/
def absArgmaxCorr : List (String × CorrEntry) → Option CorrPayload
  | [] => none
  | e :: t => some (t.foldl
      (fun a b =>
        if qabs a.correlation < qabs b.2.correlation then
          CorrPayload.mk b.1 b.2.correlation b.2.relationship
        else a)
      (CorrPayload.mk e.1 e.2.correlation e.2.relationship))

def isTrendKind (k : String) : Bool :=
  k == "temperature_trend" || k == "precipitation_trend"

/-- The number of trend facts in a planner output. -/
def countTrendFacts (l : List (String × Payload)) : Nat :=
  (l.filter (fun f => isTrendKind f.1)).length

def isYearlyKind (k : String) : Bool :=
  k == "temperature_yearly" || k == "precipitation_yearly"

/-- The number of yearly-comparison facts in a planner output. -/
def countYearlyFacts (l : List (String × Payload)) : Nat :=
  (l.filter (fun f => isYearlyKind f.1)).length

/-- The default thresholds (r² 0.3, p 0.05, extreme 2). -/
def cfgDefault : Config := ⟨mkRat 3 10, mkRat 1 20, 2⟩

def dateJan1 : MyDate := ⟨2020, 1, 1, 1⟩

def basic0 : BasicInfo := ⟨dateJan1, dateJan1, 1, "Station"⟩

/-- A statistics bundle whose patterns dict has an empty correlations
mapping. -/
def stEmptyCorr : Stats :=
  { basic := basic0
    groups := []
    patterns := some ⟨[], none, []⟩ }

/-- A statistics bundle with a single, strongly negative correlation
entry. -/
def stNegCorr : Stats :=
  { basic := basic0
    groups := []
    patterns := some ⟨[], none,
      [("temperature_and_precipitation", ⟨-(mkRat 9 10), "inverse"⟩)]⟩ }

/-- A seasonal sub-bundle used for concrete planner inputs. -/
def seas0 : SeasonalStats := ⟨some 3, some 1, some 2, some 2, 2⟩

/-- A yearly sub-bundle whose highest z-score is 2. -/
def year0 : YearlyStats := ⟨1, 1, 2021, 3, 2020, 0, 2, -1⟩

/-- A precipitation group bundle with seasonal present and a notable yearly
comparison. -/
def gPrec0 : GroupStats :=
  { summary := ⟨1, 0, 0, 2, 0⟩
    range := none
    trend := none
    seasonal := some seas0
    yearly := some year0
    extremes := none
    optional_features := none }

/-- A bundle that makes the planner emit pattern_trends,
precipitation_seasonal and precipitation_yearly. -/
def stEmit0 : Stats :=
  { basic := basic0
    groups := [("precipitation", gPrec0)]
    patterns := some ⟨[⟨"temperature", 1, "increasing", 1⟩], none, []⟩ }

/-- Thresholds under which the yearly comparison of stEmit0 is notable. -/
def cfgEmit0 : Config := ⟨mkRat 3 10, mkRat 1 20, 1⟩

/-- A one-row observation table: a single day of data for the temperature
group.  scipy skips its identical-x guard for a single point, so analyze
completes on this table with a degenerate trend. -/
def dfOneRow : DataFrame :=
  { dates := [⟨2020, 6, 15, 167⟩]
    cols := [("temperature_2m_mean (°C)", [10])] }

/-- The C2 failing input: two records sharing one date, so more than one
row but a single distinct time point; the identical-x guard fires. -/
def dfDupDate : DataFrame :=
  { dates := [⟨2020, 6, 15, 167⟩, ⟨2020, 6, 15, 167⟩]
    cols := [("temperature_2m_mean (°C)", [10, 12])] }

/-- The temperature variable group exactly as configured in summarizer.py. -/
def schemaTemp : List (String × GroupCfg) :=
  [("temperature",
    { primary := "temperature_2m_mean (°C)"
      supporting := ["temperature_2m_min (°C)", "temperature_2m_max (°C)"]
      comparison := ["apparent_temperature_mean (°C)"] })]

/-- A concrete template selector (a seeded random.choice). -/
def pickHead (l : List (List TItem)) : List TItem := l.headD []

/- ===================================================================
   Theorems
   =================================================================== -/

unseal Rat.add Rat.mul Rat.sub Rat.inv in
/-- C2: the claim asks that a trend regression over fewer than 2 distinct
time points leave the other sub-bundles intact; the code instead lets the
scipy ValueError escape analyze when the table has more than one record on
a single distinct time point (two rows sharing one date), so no bundle at
all is produced for the group.  By contrast, on a genuine one-row table
the identical-x guard is skipped and analyze completes with r_squared
exactly 0, as the claim demands. -/
theorem c2_analyze_aborts_on_one_distinct_time_point :
    dictGet dfDupDate.cols "temperature_2m_mean (°C)" = some [10, 12]
    ∧ analyze dfDupDate "Station" schemaTemp =
        Except.error "ValueError: Cannot calculate a linear regression if all x values are identical"
    ∧ (∃ (res : ResultsA) (g : GroupA), analyze dfOneRow "Station" schemaTemp = Except.ok res
        ∧ dictGet res.groups "temperature" = some g
        ∧ g.trend.r_squared = 0) := by
  refine ⟨rfl, rfl, ?_⟩
  exact ⟨_, _, rfl, rfl, rfl⟩

/-- C3 counterexample: at slope 1, r² 1/2, the lexicalizer.py variant says
showed significant increasing for temperature (not warming), and both
variants say increased (not increasing) for a kind that is neither
temperature nor precipitation, contradicting the claim as stated. -/
theorem c3_counterexample :
    describeTrendLex 1 (mkRat 1 2) "temperature" ≠ describeTrendClaimed 1 (mkRat 1 2) "temperature"
    ∧ describeTrendAi 1 (mkRat 1 2) "wind_speed" ≠ describeTrendClaimed 1 (mkRat 1 2) "wind_speed"
    ∧ describeTrendLex 1 (mkRat 1 2) "wind_speed" ≠ describeTrendClaimed 1 (mkRat 1 2) "wind_speed" := by
  refine ⟨?_, ?_, ?_⟩ <;> decide

/-- C3 amended: below r² 0.2 both variants return the stable phrase
regardless of slope; above it the strength tiers are 0.5/0.2 for
temperature and 2/1 for precipitation; the temperature direction word is
warming/cooling only in the ai.py variant and increasing/decreasing in the
lexicalizer.py variant; precipitation uses increasing/decreasing in both;
every other kind gets the bare past-tense word increased/decreased with no
tier. -/
theorem c3_amended (slope r2 : ℚ) (k : String) :
    (r2 < mkRat 1 5 →
      describeTrendLex slope r2 k = "remained relatively stable"
      ∧ describeTrendAi slope r2 k = "remained relatively stable")
    ∧ (mkRat 1 5 ≤ r2 →
      describeTrendAi slope r2 "temperature"
          = "showed " ++ tierTemp slope ++ " " ++ (if 0 < slope then "warming" else "cooling")
      ∧ describeTrendLex slope r2 "temperature"
          = "showed " ++ tierTemp slope ++ " " ++ (if 0 < slope then "increasing" else "decreasing")
      ∧ describeTrendAi slope r2 "precipitation"
          = tierPrec slope ++ " " ++ (if 0 < slope then "increasing" else "decreasing")
      ∧ describeTrendLex slope r2 "precipitation"
          = tierPrec slope ++ " " ++ (if 0 < slope then "increasing" else "decreasing")
      ∧ (k ≠ "temperature" → k ≠ "precipitation" →
          describeTrendAi slope r2 k = (if 0 < slope then "increased" else "decreased")
          ∧ describeTrendLex slope r2 k = (if 0 < slope then "increased" else "decreased"))) := by
  constructor
  · intro h
    simp [describeTrendLex, describeTrendAi, if_pos h]
  · intro h
    have h' : ¬ r2 < mkRat 1 5 := not_lt.mpr h
    refine ⟨?_, ?_, ?_, ?_, ?_⟩
    · simp [describeTrendAi, h', tierTemp]
    · simp [describeTrendLex, h', tierTemp]
    · simp [describeTrendAi, h', tierPrec]
    · simp [describeTrendLex, h', tierPrec]
    · intro hk1 hk2
      have b1 : (k == "temperature") = false := beq_eq_false_iff_ne.mpr hk1
      have b2 : (k == "precipitation") = false := beq_eq_false_iff_ne.mpr hk2
      constructor
      · simp [describeTrendAi, h', b1, b2]
      · simp [describeTrendLex, h', b1, b2]

/-- C3 witness: concrete evaluations through the amended theorem. -/
theorem c3_amended_witness :
    describeTrendAi 1 1 "temperature" = "showed significant warming"
    ∧ describeTrendLex 1 1 "wind_speed" = "increased" := by
  constructor
  · have h := ((c3_amended 1 1 "temperature").2 (by decide)).1
    rw [h]; decide
  · have h := (((c3_amended 1 1 "wind_speed").2 (by decide)).2.2.2.2 (by decide) (by decide)).2
    rw [h]; decide

theorem listSumConst (xs : List ℚ) (c : ℚ) (h : ∀ x ∈ xs, x = c) :
    xs.sum = (xs.length : ℚ) * c := by
  induction xs with
  | nil => simp
  | cons a t ih =>
    have ha : a = c := h a (by simp)
    have ht : t.sum = (t.length : ℚ) * c := ih (fun x hx => h x (by simp [hx]))
    simp [List.sum_cons, ha, ht]
    ring

theorem sampleVariance_const (xs : List ℚ) (c : ℚ) (hlen : 2 ≤ xs.length)
    (h : ∀ x ∈ xs, x = c) : sampleVariance xs = some 0 := by
  have hne : (xs.length : ℚ) ≠ 0 := by
    have : (0 : ℚ) < xs.length := by exact_mod_cast Nat.lt_of_lt_of_le (by norm_num) hlen
    exact ne_of_gt this
  have hmean : xs.sum / (xs.length : ℚ) = c := by
    rw [listSumConst xs c h, mul_div_assoc]
    field_simp
  have hzero : (xs.map (fun x => (x - xs.sum / (xs.length : ℚ)) ^ 2)).sum = 0 := by
    apply List.sum_eq_zero
    intro y hy
    obtain ⟨x, hx, rfl⟩ := List.mem_map.mp hy
    rw [h x hx, hmean]
    ring
  unfold sampleVariance
  rw [if_neg (by omega)]
  simp [hzero]

/-- C5: the coefficient of variation of line 51 is exactly 0 both when the
mean is 0 and when the std is 0; a cv of 0 fails the planner variability
test (cv > 0.6); and a constant primary column with at least two rows has
sample variance exactly 0, so the cv the analyzer stores for it denotes
exactly 0, never NaN. -/
theorem c5_cv_safety :
    (∀ std mean : ℚ, mean = 0 ∨ std = 0 → summarizeCV std mean = 0)
    ∧ (∀ g : GroupStats, g.summary.coefficient_of_variation = 0 → cvNotable g = false)
    ∧ (∀ (xs : List ℚ) (c : ℚ), 2 ≤ xs.length → (∀ x ∈ xs, x = c) →
        sampleVariance xs = some 0 ∧ (summarizePrimary xs).cv.isExactZero = true) := by
  refine ⟨?_, ?_, ?_⟩
  · intro std mean h
    rcases h with h | h
    · simp [summarizeCV, h]
    · subst h
      by_cases hm : mean = 0 <;> simp [summarizeCV, hm]
  · intro g h
    simp only [cvNotable, h]
    decide
  · intro xs c hlen h
    refine ⟨sampleVariance_const xs c hlen h, ?_⟩
    have hne : ¬ xs.isEmpty := by
      cases xs with
      | nil => simp at hlen
      | cons a t => simp
    simp only [summarizePrimary, listMean, hne, if_false, Bool.false_eq_true]
    by_cases hc : xs.sum / (xs.length : ℚ) = 0
    · simp [hc, CVA.isExactZero]
    · simp [hc, CVA.isExactZero, sampleVariance_const xs c hlen h]

/-- C5 witness: a constant column and a zero-std summary evaluated through
the theorem. -/
theorem c5_witness :
    summarizeCV 0 5 = 0
    ∧ sampleVariance [3, 3] = some 0
    ∧ (summarizePrimary [3, 3]).cv.isExactZero = true :=
  ⟨c5_cv_safety.1 0 5 (Or.inr rfl),
   (c5_cv_safety.2.2 [3, 3] 3 (by decide) (by decide)).1,
   (c5_cv_safety.2.2 [3, 3] 3 (by decide) (by decide)).2⟩

/-- C9: the claim asks that a payload missing a required field always yield
empty text; the KeyError guard in realize only wraps the final format call,
while _prepare_data runs before it, so the empty pattern_correlation
payload (which the planner really emits whenever no pair has positive
correlation) raises KeyError out of realize and out of the summary loop.
A field missing only at format time (temperature_yearly on an empty dict)
does produce the claimed empty text. -/
theorem c9_realize_raises_on_missing_fields :
    (∀ pick, realizeM pick "pattern_correlation" (Val.vdict [])
        = Except.error "KeyError: correlation")
    ∧ (∀ pick, generateSummaryM pick [("pattern_correlation", Val.vdict [])]
        = Except.error "KeyError: correlation")
    ∧ realizeM pickHead "temperature_yearly" (Val.vdict []) = Except.ok ""
    ∧ (∀ (cfg : Config) (st : Stats) (p : PatternsStats), st.patterns = some p →
        maxCorrPayload p.correlations = none →
        ("pattern_correlation", Payload.corr none) ∈ selectContent cfg st) := by
  refine ⟨fun pick => rfl, fun pick => rfl, rfl, ?_⟩
  intro cfg st p hp hm
  have hmem : ("pattern_correlation", Payload.corr none) ∈ patternFacts st := by
    simp [patternFacts, hp, hm]
  exact List.mem_cons_of_mem _ (List.mem_append_right _ hmem)

/-- C9 witness: the failing input evaluated through the theorem. -/
theorem c9_witness :
    realizeM pickHead "pattern_correlation" (Val.vdict [])
        = Except.error "KeyError: correlation"
    ∧ ("pattern_correlation", Payload.corr none) ∈ selectContent cfgDefault stEmptyCorr :=
  ⟨c9_realize_raises_on_missing_fields.1 pickHead,
   c9_realize_raises_on_missing_fields.2.2.2 cfgDefault stEmptyCorr ⟨[], none, []⟩ rfl rfl⟩

/-- The fact kinds the planner can emit that the realizer registry does not
know. -/
def unregisteredKind (k : String) : Bool :=
  k == "pattern_trends" || k == "precipitation_seasonal" || k == "precipitation_yearly"

theorem summarySentences_drop_unregistered (pick : List (List TItem) → List TItem)
    (content : List (String × Val)) :
    ∀ acc, summarySentences pick (content.filter (fun f => !unregisteredKind f.1)) acc
      = summarySentences pick content acc := by
  induction content with
  | nil => intro acc; rfl
  | cons f t ih =>
    intro acc
    by_cases hk : unregisteredKind f.1 = true
    · have hfilter : (f :: t).filter (fun f => !unregisteredKind f.1)
          = t.filter (fun f => !unregisteredKind f.1) := by
        simp [List.filter_cons, hk]
      rw [hfilter, ih]
      have hok : (if f.1 == "other_conditions" then realizeCombined f.2
          else realizeM pick f.1 f.2) = Except.ok "" := by
        rcases Bool.or_eq_true_iff.mp hk with h12 | h3
        · rcases Bool.or_eq_true_iff.mp h12 with h1 | h2
          · rw [eq_of_beq h1]; rfl
          · rw [eq_of_beq h2]; rfl
        · rw [eq_of_beq h3]; rfl
      rw [summarySentences]
      rw [hok]
      simp
    · have hfilter : (f :: t).filter (fun f => !unregisteredKind f.1)
          = f :: t.filter (fun f => !unregisteredKind f.1) := by
        simp [List.filter_cons, hk]
      rw [hfilter]
      rw [summarySentences, summarySentences]
      cases hr : (if f.1 == "other_conditions" then realizeCombined f.2
          else realizeM pick f.1 f.2) with
      | error e => rfl
      | ok s => exact ih _

/-- C10: the pattern_trends, precipitation_seasonal and precipitation_yearly
fact kinds the planner can emit are absent from the realizer registry (which
only has pattern_trends_multi and the temperature seasonal/yearly
templates); realize returns empty text for them for every payload and
selector, dropping them from a summary changes nothing, and there really is
a statistics bundle under which the planner emits all three. -/
theorem c10_unregistered_kinds :
    (∀ pick d, realizeM pick "pattern_trends" d = Except.ok ""
      ∧ realizeM pick "precipitation_seasonal" d = Except.ok ""
      ∧ realizeM pick "precipitation_yearly" d = Except.ok "")
    ∧ (∀ pick content, generateSummaryM pick
        (content.filter (fun f => !unregisteredKind f.1)) = generateSummaryM pick content)
    ∧ (("pattern_trends", Payload.patternT [⟨"temperature", 1, "increasing", 1⟩])
        ∈ selectContent cfgEmit0 stEmit0
      ∧ ("precipitation_seasonal", Payload.seasonal seas0) ∈ selectContent cfgEmit0 stEmit0
      ∧ ("precipitation_yearly", Payload.yearly year0) ∈ selectContent cfgEmit0 stEmit0) := by
  refine ⟨fun pick d => ⟨rfl, rfl, rfl⟩, ?_, ?_⟩
  · intro pick content
    unfold generateSummaryM
    rw [summarySentences_drop_unregistered]
  · refine ⟨?_, ?_, ?_⟩ <;> decide

/-- C10 witness: the filter invariance applied to a concrete summary run. -/
theorem c10_witness :
    generateSummaryM pickHead
      ([(("pattern_trends" : String), Val.vdict [])].filter (fun f => !unregisteredKind f.1))
      = generateSummaryM pickHead [(("pattern_trends" : String), Val.vdict [])] :=
  c10_unregistered_kinds.2.1 pickHead [("pattern_trends", Val.vdict [])]

/-- C1 counterexample: on a bundle with an empty correlations mapping the
planner still emits a pattern_correlation fact (with empty payload), and on
a bundle whose only entry is a strong negative correlation the emitted
payload is again empty rather than the pair of maximal absolute
correlation. -/
theorem c1_counterexample :
    (("pattern_correlation", Payload.corr none) ∈ selectContent cfgDefault stEmptyCorr)
    ∧ (("pattern_correlation", Payload.corr none) ∈ selectContent cfgDefault stNegCorr)
    ∧ absArgmaxCorr [("temperature_and_precipitation", ⟨-(mkRat 9 10), "inverse"⟩)]
        = some ⟨"temperature_and_precipitation", -(mkRat 9 10), "inverse"⟩
    ∧ Payload.corr none
        ≠ Payload.corr (some ⟨"temperature_and_precipitation", -(mkRat 9 10), "inverse"⟩) := by
  refine ⟨?_, ?_, ?_, ?_⟩ <;> decide

theorem corrFold_none_iff (l : List (String × CorrEntry)) :
    ∀ acc : Option CorrPayload,
      l.foldl corrFoldStep acc = none ↔ (acc = none ∧ ∀ e ∈ l, e.2.correlation ≤ 0) := by
  induction l with
  | nil => intro acc; simp
  | cons e t ih =>
    intro acc
    rw [List.foldl_cons, ih]
    constructor
    · rintro ⟨h1, h2⟩
      unfold corrFoldStep at h1
      cases acc with
      | none =>
        simp only at h1
        by_cases hlt : (0 : ℚ) < e.2.correlation
        · rw [if_pos hlt] at h1; cases h1
        · exact ⟨rfl, fun x hx => by
            rcases List.mem_cons.mp hx with rfl | hxt
            · exact not_lt.mp hlt
            · exact h2 x hxt⟩
      | some a =>
        simp only at h1
        by_cases hlt : a.correlation < e.2.correlation
        · rw [if_pos hlt] at h1; cases h1
        · rw [if_neg hlt] at h1; cases h1
    · rintro ⟨rfl, h2⟩
      have he : ¬ (0 : ℚ) < e.2.correlation := not_lt.mpr (h2 e (List.mem_cons_self e t))
      refine ⟨?_, fun x hx => h2 x (List.mem_cons_of_mem e hx)⟩
      unfold corrFoldStep
      simp only
      rw [if_neg he]

theorem corrFold_some_spec (l : List (String × CorrEntry)) :
    ∀ (acc : Option CorrPayload) (pay : CorrPayload), l.foldl corrFoldStep acc = some pay →
      (acc = some pay ∨ ∃ e ∈ l, pay = CorrPayload.mk e.1 e.2.correlation e.2.relationship)
      ∧ (∀ e ∈ l, e.2.correlation ≤ pay.correlation)
      ∧ (∀ a, acc = some a → a.correlation ≤ pay.correlation)
      ∧ (acc = none → 0 < pay.correlation) := by
  induction l with
  | nil =>
    intro acc pay h
    simp only [List.foldl_nil] at h
    subst h
    refine ⟨Or.inl rfl, by simp, ?_, ?_⟩
    · intro a ha; rw [Option.some_inj.mp ha]
    · intro hn; cases hn
  | cons e t ih =>
    intro acc pay h
    rw [List.foldl_cons] at h
    cases acc with
    | none =>
      have hstep : corrFoldStep none e
          = (if (0 : ℚ) < e.2.correlation
             then some ⟨e.1, e.2.correlation, e.2.relationship⟩ else none) := rfl
      by_cases hlt : (0 : ℚ) < e.2.correlation
      · rw [hstep, if_pos hlt] at h
        obtain ⟨hprov, hmax, hacc, _⟩ := ih _ pay h
        have hec : e.2.correlation ≤ pay.correlation := hacc _ rfl
        refine ⟨?_, ?_, ?_, ?_⟩
        · rcases hprov with hp | ⟨x, hx, hxe⟩
          · exact Or.inr ⟨e, List.mem_cons_self e t, (Option.some_inj.mp hp).symm⟩
          · exact Or.inr ⟨x, List.mem_cons_of_mem e hx, hxe⟩
        · intro x hx
          rcases List.mem_cons.mp hx with rfl | hxt
          · exact hec
          · exact hmax x hxt
        · intro a ha; cases ha
        · intro _; exact lt_of_lt_of_le hlt hec
      · rw [hstep, if_neg hlt] at h
        obtain ⟨hprov, hmax, _, hpos⟩ := ih _ pay h
        refine ⟨?_, ?_, ?_, ?_⟩
        · rcases hprov with hp | ⟨x, hx, hxe⟩
          · cases hp
          · exact Or.inr ⟨x, List.mem_cons_of_mem e hx, hxe⟩
        · intro x hx
          rcases List.mem_cons.mp hx with rfl | hxt
          · exact le_of_lt (lt_of_le_of_lt (not_lt.mp hlt) (hpos rfl))
          · exact hmax x hxt
        · intro a ha; cases ha
        · intro _; exact hpos rfl
    | some a0 =>
      have hstep : corrFoldStep (some a0) e
          = (if a0.correlation < e.2.correlation
             then some ⟨e.1, e.2.correlation, e.2.relationship⟩ else some a0) := rfl
      by_cases hlt : a0.correlation < e.2.correlation
      · rw [hstep, if_pos hlt] at h
        obtain ⟨hprov, hmax, hacc, _⟩ := ih _ pay h
        have hec : e.2.correlation ≤ pay.correlation := hacc _ rfl
        refine ⟨?_, ?_, ?_, ?_⟩
        · rcases hprov with hp | ⟨x, hx, hxe⟩
          · exact Or.inr ⟨e, List.mem_cons_self e t, (Option.some_inj.mp hp).symm⟩
          · exact Or.inr ⟨x, List.mem_cons_of_mem e hx, hxe⟩
        · intro x hx
          rcases List.mem_cons.mp hx with rfl | hxt
          · exact hec
          · exact hmax x hxt
        · intro a ha
          cases Option.some_inj.mp ha
          exact le_of_lt (lt_of_lt_of_le hlt hec)
        · intro hn; cases hn
      · rw [hstep, if_neg hlt] at h
        obtain ⟨hprov, hmax, hacc, _⟩ := ih _ pay h
        refine ⟨?_, ?_, ?_, ?_⟩
        · rcases hprov with hp | ⟨x, hx, hxe⟩
          · exact Or.inl hp
          · exact Or.inr ⟨x, List.mem_cons_of_mem e hx, hxe⟩
        · intro x hx
          rcases List.mem_cons.mp hx with rfl | hxt
          · exact le_trans (not_lt.mp hlt) (hacc a0 rfl)
          · exact hmax x hxt
        · intro a ha
          cases Option.some_inj.mp ha
          exact hacc a0 rfl
        · intro hn; cases hn

/-- C1 amended: whenever the patterns dict is present the planner emits a
pattern_correlation fact unconditionally, with the fold of the signed
max-correlation scan as payload; that payload is empty exactly when no
entry has positive signed correlation (so the correlations mapping being
empty, or holding only negative pairs, still produces the fact, with empty
payload, and a strongly negative pair is never selected); a non-empty
payload is an entry of the mapping of positive correlation that bounds
every entry by signed value. -/
theorem c1_amended (cfg : Config) (st : Stats) (p : PatternsStats)
    (h : st.patterns = some p) :
    ("pattern_correlation", Payload.corr (maxCorrPayload p.correlations)) ∈ selectContent cfg st
    ∧ (maxCorrPayload p.correlations = none ↔ ∀ e ∈ p.correlations, e.2.correlation ≤ 0)
    ∧ (∀ pay, maxCorrPayload p.correlations = some pay →
        0 < pay.correlation
        ∧ (∀ e ∈ p.correlations, e.2.correlation ≤ pay.correlation)
        ∧ ∃ e ∈ p.correlations, pay = CorrPayload.mk e.1 e.2.correlation e.2.relationship) := by
  refine ⟨?_, ?_, ?_⟩
  · have hmem : ("pattern_correlation", Payload.corr (maxCorrPayload p.correlations))
        ∈ patternFacts st := by
      simp [patternFacts, h]
    exact List.mem_cons_of_mem _ (List.mem_append_right _ hmem)
  · rw [maxCorrPayload, corrFold_none_iff]
    simp
  · intro pay hpay
    obtain ⟨hprov, hmax, _, hpos⟩ := corrFold_some_spec p.correlations none pay hpay
    refine ⟨hpos rfl, hmax, ?_⟩
    rcases hprov with hp | hex
    · cases hp
    · exact hex

/-- C1 witness: the amended behaviour on the strong-negative bundle. -/
theorem c1_amended_witness :
    ("pattern_correlation", Payload.corr (maxCorrPayload
        [("temperature_and_precipitation", ⟨-(mkRat 9 10), "inverse"⟩)]))
      ∈ selectContent cfgDefault stNegCorr
    ∧ (maxCorrPayload [(("temperature_and_precipitation" : String),
        (⟨-(mkRat 9 10), "inverse"⟩ : CorrEntry))] = none ↔
        ∀ e ∈ [(("temperature_and_precipitation" : String),
          (⟨-(mkRat 9 10), "inverse"⟩ : CorrEntry))], e.2.correlation ≤ 0) :=
  ⟨(c1_amended cfgDefault stNegCorr ⟨[], none,
      [("temperature_and_precipitation", ⟨-(mkRat 9 10), "inverse"⟩)]⟩ rfl).1,
   (c1_amended cfgDefault stNegCorr ⟨[], none,
      [("temperature_and_precipitation", ⟨-(mkRat 9 10), "inverse"⟩)]⟩ rfl).2.1⟩

theorem countTrendFacts_append (a b : List (String × Payload)) :
    countTrendFacts (a ++ b) = countTrendFacts a + countTrendFacts b := by
  simp [countTrendFacts, List.filter_append]

theorem countYearlyFacts_append (a b : List (String × Payload)) :
    countYearlyFacts (a ++ b) = countYearlyFacts a + countYearlyFacts b := by
  simp [countYearlyFacts, List.filter_append]

theorem countTrend_primaryFacts (cfg : Config) (st : Stats) (name : String)
    (htr : isTrendKind (name ++ "_trend") = true)
    (h1 : isTrendKind (name ++ "_summary") = false)
    (h2 : isTrendKind (name ++ "_seasonal") = false)
    (h3 : isTrendKind (name ++ "_yearly") = false)
    (h4 : isTrendKind (name ++ "_extremes") = false) :
    countTrendFacts (primaryFacts cfg st name)
      = (match dictGet st.groups name with
         | none => 0
         | some g => if isTrendSignificant cfg g.trend then 1 else 0) := by
  unfold primaryFacts
  cases hg : dictGet st.groups name with
  | none => simp [countTrendFacts]
  | some g =>
    cases ht : g.trend <;> cases hs : g.seasonal <;> cases hy : g.yearly <;>
      cases he : g.extremes <;>
      simp only [countTrendFacts, List.filter_append, List.filter_cons, List.filter_nil,
        List.length_append, List.length_nil, ht, hs, hy, he, h1, h2, h3, h4, htr,
        Bool.false_eq_true, if_false] <;>
      split_ifs <;> simp_all [isTrendSignificant]

theorem countYearly_primaryFacts (cfg : Config) (st : Stats) (name : String)
    (hyk : isYearlyKind (name ++ "_yearly") = true)
    (h1 : isYearlyKind (name ++ "_summary") = false)
    (h2 : isYearlyKind (name ++ "_trend") = false)
    (h3 : isYearlyKind (name ++ "_seasonal") = false)
    (h4 : isYearlyKind (name ++ "_extremes") = false) :
    countYearlyFacts (primaryFacts cfg st name)
      = (match dictGet st.groups name with
         | none => 0
         | some g => if isYearlyNotable cfg g.yearly then 1 else 0) := by
  unfold primaryFacts
  cases hg : dictGet st.groups name with
  | none => simp [countYearlyFacts]
  | some g =>
    cases ht : g.trend <;> cases hs : g.seasonal <;> cases hy : g.yearly <;>
      cases he : g.extremes <;>
      simp only [countYearlyFacts, List.filter_append, List.filter_cons, List.filter_nil,
        List.length_append, List.length_nil, ht, hs, hy, he, h1, h2, h3, h4, hyk,
        Bool.false_eq_true, if_false] <;>
      split_ifs <;> simp_all [isYearlyNotable]

theorem countTrendFacts_cons (f : String × Payload) (l : List (String × Payload)) :
    countTrendFacts (f :: l) = (if isTrendKind f.1 then 1 else 0) + countTrendFacts l := by
  simp only [countTrendFacts, List.filter_cons]
  split_ifs <;> simp [Nat.add_comm]

theorem countYearlyFacts_cons (f : String × Payload) (l : List (String × Payload)) :
    countYearlyFacts (f :: l) = (if isYearlyKind f.1 then 1 else 0) + countYearlyFacts l := by
  simp only [countYearlyFacts, List.filter_cons]
  split_ifs <;> simp [Nat.add_comm]

theorem countTrend_secondaryFacts (cfg : Config) (st : Stats) :
    countTrendFacts (secondaryFacts cfg st) = 0 := by
  simp only [secondaryFacts]
  by_cases h : (secondaryVars cfg st).isEmpty <;> simp [countTrendFacts, h]
  decide

theorem countYearly_secondaryFacts (cfg : Config) (st : Stats) :
    countYearlyFacts (secondaryFacts cfg st) = 0 := by
  simp only [secondaryFacts]
  by_cases h : (secondaryVars cfg st).isEmpty <;> simp [countYearlyFacts, h]
  decide

theorem countTrend_patternFacts (st : Stats) : countTrendFacts (patternFacts st) = 0 := by
  unfold patternFacts
  cases st.patterns with
  | none => rfl
  | some p =>
    by_cases h : p.strongest_trends.isEmpty <;> simp [countTrendFacts, h] <;>
      first
      | exact ⟨by decide, by decide⟩
      | decide

theorem countYearly_patternFacts (st : Stats) : countYearlyFacts (patternFacts st) = 0 := by
  unfold patternFacts
  cases st.patterns with
  | none => rfl
  | some p =>
    by_cases h : p.strongest_trends.isEmpty <;> simp [countYearlyFacts, h] <;>
      first
      | exact ⟨by decide, by decide⟩
      | decide

theorem countTrend_selectContent (cfg : Config) (st : Stats) :
    countTrendFacts (selectContent cfg st)
      = countTrendFacts (primaryFacts cfg st "temperature")
        + countTrendFacts (primaryFacts cfg st "precipitation") := by
  unfold selectContent
  rw [countTrendFacts_cons, countTrendFacts_append, countTrendFacts_append,
    countTrendFacts_append, countTrend_secondaryFacts, countTrend_patternFacts]
  simp only [show isTrendKind "overview" = false from rfl, Bool.false_eq_true, if_false]
  omega

theorem countYearly_selectContent (cfg : Config) (st : Stats) :
    countYearlyFacts (selectContent cfg st)
      = countYearlyFacts (primaryFacts cfg st "temperature")
        + countYearlyFacts (primaryFacts cfg st "precipitation") := by
  unfold selectContent
  rw [countYearlyFacts_cons, countYearlyFacts_append, countYearlyFacts_append,
    countYearlyFacts_append, countYearly_secondaryFacts, countYearly_patternFacts]
  simp only [show isYearlyKind "overview" = false from rfl, Bool.false_eq_true, if_false]
  omega

theorem isTrendSignificant_mono (cfg cfg' : Config) (t : Option TrendStats)
    (hr : cfg.r2_threshold ≤ cfg'.r2_threshold)
    (hp : cfg.p_value_threshold = cfg'.p_value_threshold)
    (h : isTrendSignificant cfg' t = true) : isTrendSignificant cfg t = true := by
  cases t with
  | none => exact h
  | some ts =>
    simp only [isTrendSignificant, Bool.and_eq_true, decide_eq_true_eq] at h ⊢
    exact ⟨le_trans hr h.1, hp ▸ h.2⟩

theorem isYearlyNotable_mono (cfg cfg' : Config) (y : Option YearlyStats)
    (he : cfg.extreme_threshold ≤ cfg'.extreme_threshold)
    (h : isYearlyNotable cfg' y = true) : isYearlyNotable cfg y = true := by
  cases y with
  | none => exact h
  | some ys =>
    simp only [isYearlyNotable, Bool.or_eq_true, decide_eq_true_eq] at h ⊢
    rcases h with h | h
    · exact Or.inl (le_trans he h)
    · exact Or.inr (le_trans he h)

/-- C4: for a fixed statistics bundle, raising r2_threshold (with the
p-value threshold unchanged) never increases the number of trend facts the
planner emits, and raising extreme_threshold never increases the number of
yearly-comparison facts. -/
theorem c4_threshold_monotonicity :
    (∀ (st : Stats) (cfg cfg' : Config), cfg.r2_threshold ≤ cfg'.r2_threshold →
      cfg.p_value_threshold = cfg'.p_value_threshold →
      countTrendFacts (selectContent cfg' st) ≤ countTrendFacts (selectContent cfg st))
    ∧ (∀ (st : Stats) (cfg cfg' : Config), cfg.extreme_threshold ≤ cfg'.extreme_threshold →
      countYearlyFacts (selectContent cfg' st) ≤ countYearlyFacts (selectContent cfg st)) := by
  constructor
  · intro st cfg cfg' hr hp
    rw [countTrend_selectContent, countTrend_selectContent]
    have key : ∀ name, isTrendKind (name ++ "_trend") = true →
        isTrendKind (name ++ "_summary") = false →
        isTrendKind (name ++ "_seasonal") = false →
        isTrendKind (name ++ "_yearly") = false →
        isTrendKind (name ++ "_extremes") = false →
        countTrendFacts (primaryFacts cfg' st name)
          ≤ countTrendFacts (primaryFacts cfg st name) := by
      intro name a1 a2 a3 a4 a5
      rw [countTrend_primaryFacts cfg st name a1 a2 a3 a4 a5,
        countTrend_primaryFacts cfg' st name a1 a2 a3 a4 a5]
      cases hg : dictGet st.groups name with
      | none => exact le_refl _
      | some g =>
        simp only
        by_cases hsig : isTrendSignificant cfg' g.trend = true
        · rw [if_pos hsig, if_pos (isTrendSignificant_mono cfg cfg' g.trend hr hp hsig)]
        · rw [if_neg hsig]
          split_ifs <;> omega
    exact Nat.add_le_add (key "temperature" rfl rfl rfl rfl rfl)
      (key "precipitation" rfl rfl rfl rfl rfl)
  · intro st cfg cfg' he
    rw [countYearly_selectContent, countYearly_selectContent]
    have key : ∀ name, isYearlyKind (name ++ "_yearly") = true →
        isYearlyKind (name ++ "_summary") = false →
        isYearlyKind (name ++ "_trend") = false →
        isYearlyKind (name ++ "_seasonal") = false →
        isYearlyKind (name ++ "_extremes") = false →
        countYearlyFacts (primaryFacts cfg' st name)
          ≤ countYearlyFacts (primaryFacts cfg st name) := by
      intro name a1 a2 a3 a4 a5
      rw [countYearly_primaryFacts cfg st name a1 a2 a3 a4 a5,
        countYearly_primaryFacts cfg' st name a1 a2 a3 a4 a5]
      cases hg : dictGet st.groups name with
      | none => exact le_refl _
      | some g =>
        simp only
        by_cases hno : isYearlyNotable cfg' g.yearly = true
        · rw [if_pos hno, if_pos (isYearlyNotable_mono cfg cfg' g.yearly he hno)]
        · rw [if_neg hno]
          split_ifs <;> omega
    exact Nat.add_le_add (key "temperature" rfl rfl rfl rfl rfl)
      (key "precipitation" rfl rfl rfl rfl rfl)

/-- C4 witness: monotonicity evaluated between the default thresholds and a
strictly larger pair on a concrete bundle. -/
theorem c4_witness :
    countTrendFacts (selectContent ⟨1, mkRat 1 20, 2⟩ stEmit0)
      ≤ countTrendFacts (selectContent cfgDefault stEmit0)
    ∧ countYearlyFacts (selectContent ⟨mkRat 3 10, mkRat 1 20, 3⟩ stEmit0)
      ≤ countYearlyFacts (selectContent cfgDefault stEmit0) :=
  ⟨c4_threshold_monotonicity.1 stEmit0 cfgDefault ⟨1, mkRat 1 20, 2⟩ (by decide) rfl,
   c4_threshold_monotonicity.2 stEmit0 cfgDefault ⟨mkRat 3 10, mkRat 1 20, 3⟩ (by decide)⟩

theorem mem_primaryFacts_iff (cfg : Config) (st : Stats) (name : String) (f : String × Payload) :
    f ∈ primaryFacts cfg st name ↔ ∃ g, dictGet st.groups name = some g ∧
      (f = (name ++ "_summary", Payload.group g)
       ∨ (∃ t, g.trend = some t ∧ isTrendSignificant cfg (some t) = true
            ∧ f = (name ++ "_trend", Payload.trend t))
       ∨ (∃ s, g.seasonal = some s ∧ f = (name ++ "_seasonal", Payload.seasonal s))
       ∨ (∃ y, g.yearly = some y ∧ isYearlyNotable cfg (some y) = true
            ∧ f = (name ++ "_yearly", Payload.yearly y))
       ∨ (∃ e, g.extremes = some e ∧ f = (name ++ "_extremes", Payload.extremes e))) := by
  unfold primaryFacts
  cases hg : dictGet st.groups name with
  | none => simp
  | some g =>
    cases ht : g.trend <;> cases hs : g.seasonal <;> cases hy : g.yearly <;>
      cases he : g.extremes <;>
      simp only [List.mem_append, List.mem_singleton, List.not_mem_nil, or_false, false_or,
        ht, hs, hy, he, Option.some_inj, exists_eq_left', exists_and_left, exists_false,
        Option.some.injEq] <;>
      (try split_ifs) <;>
      simp_all <;>
      tauto

theorem mem_selectContent_iff (cfg : Config) (st : Stats) (f : String × Payload) :
    f ∈ selectContent cfg st ↔
      f = ("overview", Payload.basic st.basic)
      ∨ f ∈ primaryFacts cfg st "temperature"
      ∨ f ∈ primaryFacts cfg st "precipitation"
      ∨ f ∈ secondaryFacts cfg st
      ∨ f ∈ patternFacts st := by
  simp [selectContent, List.mem_append, or_assoc]

theorem kind_secondaryFacts (cfg : Config) (st : Stats) (f : String × Payload)
    (h : f ∈ secondaryFacts cfg st) : f.1 = "other_conditions" := by
  simp only [secondaryFacts] at h
  by_cases hl : (secondaryVars cfg st).isEmpty <;> simp [hl] at h
  simp [h]

theorem kind_patternFacts (st : Stats) (f : String × Payload)
    (h : f ∈ patternFacts st) : f.1 = "pattern_trends" ∨ f.1 = "pattern_correlation" := by
  unfold patternFacts at h
  cases hp : st.patterns with
  | none => rw [hp] at h; simp at h
  | some p =>
    rw [hp] at h
    by_cases hl : p.strongest_trends.isEmpty <;> simp [hl] at h
    · simp [h]
    · rcases h with h | h <;> simp [h]

theorem kind_primaryFacts (cfg : Config) (st : Stats) (name : String) (f : String × Payload)
    (h : f ∈ primaryFacts cfg st name) :
    f.1 = name ++ "_summary" ∨ f.1 = name ++ "_trend" ∨ f.1 = name ++ "_seasonal"
    ∨ f.1 = name ++ "_yearly" ∨ f.1 = name ++ "_extremes" := by
  rw [mem_primaryFacts_iff] at h
  obtain ⟨g, _, hc⟩ := h
  rcases hc with h | ⟨t, _, _, h⟩ | ⟨s, _, h⟩ | ⟨y, _, _, h⟩ | ⟨e, _, h⟩ <;> simp [h]


theorem kind_secondaryFactsK (cfg : Config) (st : Stats) (k : String) (p : Payload)
    (h : (k, p) ∈ secondaryFacts cfg st) : k = "other_conditions" :=
  kind_secondaryFacts cfg st (k, p) h

theorem kind_patternFactsK (st : Stats) (k : String) (p : Payload)
    (h : (k, p) ∈ patternFacts st) : k = "pattern_trends" ∨ k = "pattern_correlation" :=
  kind_patternFacts st (k, p) h

/-- C6: the planner output starts with the overview fact and is laid out in
the fixed order temperature facts, then precipitation facts, then secondary
and cross-variable facts; for each present primary group the summary fact
is always emitted, the trend fact is emitted iff r² is at least
r2_threshold and the p-value is below p_value_threshold, the seasonal and
extremes facts iff the corresponding sub-bundle is present, and the yearly
fact iff one of the yearly z-scores reaches extreme_threshold in absolute
value. -/
theorem c6_select_content_policy (cfg : Config) (st : Stats) :
    (selectContent cfg st).head? = some ("overview", Payload.basic st.basic)
    ∧ selectContent cfg st
        = ("overview", Payload.basic st.basic)
          :: (primaryFacts cfg st "temperature" ++ primaryFacts cfg st "precipitation"
              ++ secondaryFacts cfg st ++ patternFacts st)
    ∧ (∀ name, (name = "temperature" ∨ name = "precipitation") →
        ∀ g, dictGet st.groups name = some g →
          ((name ++ "_summary", Payload.group g) ∈ selectContent cfg st)
          ∧ (∀ t, g.trend = some t →
              (((name ++ "_trend", Payload.trend t) ∈ selectContent cfg st)
                ↔ (cfg.r2_threshold ≤ t.r_squared ∧ t.p_value < cfg.p_value_threshold)))
          ∧ ((∃ s, (name ++ "_seasonal", Payload.seasonal s) ∈ selectContent cfg st)
              ↔ g.seasonal.isSome)
          ∧ (∀ y, g.yearly = some y →
              (((name ++ "_yearly", Payload.yearly y) ∈ selectContent cfg st)
                ↔ (cfg.extreme_threshold ≤ qabs y.highest_zscore
                   ∨ cfg.extreme_threshold ≤ qabs y.lowest_zscore)))
          ∧ ((∃ e, (name ++ "_extremes", Payload.extremes e) ∈ selectContent cfg st)
              ↔ g.extremes.isSome)) := by
  refine ⟨rfl, rfl, ?_⟩
  intro name hname g hg
  rcases hname with rfl | rfl <;>
  · refine ⟨?_, ?_, ?_, ?_, ?_⟩
    · apply (mem_selectContent_iff cfg st _).mpr
      first
      | (refine Or.inr (Or.inl ?_)
         rw [mem_primaryFacts_iff]
         exact ⟨g, hg, Or.inl rfl⟩)
      | (refine Or.inr (Or.inr (Or.inl ?_))
         rw [mem_primaryFacts_iff]
         exact ⟨g, hg, Or.inl rfl⟩)
    · intro t ht
      constructor
      · intro hmem
        rcases (mem_selectContent_iff cfg st _).mp hmem with h | h | h | h | h
        · simp only [Prod.mk.injEq] at h
          exact absurd h.1 (by decide)
        · rw [mem_primaryFacts_iff] at h
          obtain ⟨g', hg', hc⟩ := h
          rcases hc with hq | ⟨t', ht', hsig, hq⟩ | ⟨s', hs', hq⟩ | ⟨y', hy', hn, hq⟩ |
            ⟨e', he', hq⟩ <;> simp only [Prod.mk.injEq] at hq
          · exact absurd hq.1 (by decide)
          · first
            | exact absurd hq.1 (by decide)
            | (rw [hg] at hg'
               obtain rfl := Option.some_inj.mp hg'
               obtain rfl : t = t' := by simpa using hq.2
               simpa [isTrendSignificant] using hsig)
          · exact absurd hq.1 (by decide)
          · exact absurd hq.1 (by decide)
          · exact absurd hq.1 (by decide)
        · rw [mem_primaryFacts_iff] at h
          obtain ⟨g', hg', hc⟩ := h
          rcases hc with hq | ⟨t', ht', hsig, hq⟩ | ⟨s', hs', hq⟩ | ⟨y', hy', hn, hq⟩ |
            ⟨e', he', hq⟩ <;> simp only [Prod.mk.injEq] at hq
          · exact absurd hq.1 (by decide)
          · first
            | exact absurd hq.1 (by decide)
            | (rw [hg] at hg'
               obtain rfl := Option.some_inj.mp hg'
               obtain rfl : t = t' := by simpa using hq.2
               simpa [isTrendSignificant] using hsig)
          · exact absurd hq.1 (by decide)
          · exact absurd hq.1 (by decide)
          · exact absurd hq.1 (by decide)
        · exact absurd (kind_secondaryFactsK cfg st _ _ h) (by decide)
        · rcases kind_patternFactsK st _ _ h with hk | hk <;> exact absurd hk (by decide)
      · intro hcond
        apply (mem_selectContent_iff cfg st _).mpr
        first
        | (refine Or.inr (Or.inl ?_)
           rw [mem_primaryFacts_iff]
           refine ⟨g, hg, Or.inr (Or.inl ⟨t, ht, ?_, rfl⟩)⟩
           simp only [isTrendSignificant, Bool.and_eq_true, decide_eq_true_eq]
           exact hcond)
        | (refine Or.inr (Or.inr (Or.inl ?_))
           rw [mem_primaryFacts_iff]
           refine ⟨g, hg, Or.inr (Or.inl ⟨t, ht, ?_, rfl⟩)⟩
           simp only [isTrendSignificant, Bool.and_eq_true, decide_eq_true_eq]
           exact hcond)
    · constructor
      · rintro ⟨s, hmem⟩
        rcases (mem_selectContent_iff cfg st _).mp hmem with h | h | h | h | h
        · simp only [Prod.mk.injEq] at h
          exact absurd h.1 (by decide)
        · rw [mem_primaryFacts_iff] at h
          obtain ⟨g', hg', hc⟩ := h
          rcases hc with hq | ⟨t', ht', hsig, hq⟩ | ⟨s', hs', hq⟩ | ⟨y', hy', hn, hq⟩ |
            ⟨e', he', hq⟩ <;> simp only [Prod.mk.injEq] at hq
          · exact absurd hq.1 (by decide)
          · exact absurd hq.1 (by decide)
          · first
            | exact absurd hq.1 (by decide)
            | (rw [hg] at hg'
               obtain rfl := Option.some_inj.mp hg'
               simp [hs'])
          · exact absurd hq.1 (by decide)
          · exact absurd hq.1 (by decide)
        · rw [mem_primaryFacts_iff] at h
          obtain ⟨g', hg', hc⟩ := h
          rcases hc with hq | ⟨t', ht', hsig, hq⟩ | ⟨s', hs', hq⟩ | ⟨y', hy', hn, hq⟩ |
            ⟨e', he', hq⟩ <;> simp only [Prod.mk.injEq] at hq
          · exact absurd hq.1 (by decide)
          · exact absurd hq.1 (by decide)
          · first
            | exact absurd hq.1 (by decide)
            | (rw [hg] at hg'
               obtain rfl := Option.some_inj.mp hg'
               simp [hs'])
          · exact absurd hq.1 (by decide)
          · exact absurd hq.1 (by decide)
        · exact absurd (kind_secondaryFactsK cfg st _ _ h) (by decide)
        · rcases kind_patternFactsK st _ _ h with hk | hk <;> exact absurd hk (by decide)
      · intro hsome
        obtain ⟨s, hs⟩ := Option.isSome_iff_exists.mp hsome
        refine ⟨s, (mem_selectContent_iff cfg st _).mpr ?_⟩
        first
        | (refine Or.inr (Or.inl ?_)
           rw [mem_primaryFacts_iff]
           exact ⟨g, hg, Or.inr (Or.inr (Or.inl ⟨s, hs, rfl⟩))⟩)
        | (refine Or.inr (Or.inr (Or.inl ?_))
           rw [mem_primaryFacts_iff]
           exact ⟨g, hg, Or.inr (Or.inr (Or.inl ⟨s, hs, rfl⟩))⟩)
    · intro y hy
      constructor
      · intro hmem
        rcases (mem_selectContent_iff cfg st _).mp hmem with h | h | h | h | h
        · simp only [Prod.mk.injEq] at h
          exact absurd h.1 (by decide)
        · rw [mem_primaryFacts_iff] at h
          obtain ⟨g', hg', hc⟩ := h
          rcases hc with hq | ⟨t', ht', hsig, hq⟩ | ⟨s', hs', hq⟩ | ⟨y', hy', hn, hq⟩ |
            ⟨e', he', hq⟩ <;> simp only [Prod.mk.injEq] at hq
          · exact absurd hq.1 (by decide)
          · exact absurd hq.1 (by decide)
          · exact absurd hq.1 (by decide)
          · first
            | exact absurd hq.1 (by decide)
            | (rw [hg] at hg'
               obtain rfl := Option.some_inj.mp hg'
               obtain rfl : y = y' := by simpa using hq.2
               simpa [isYearlyNotable] using hn)
          · exact absurd hq.1 (by decide)
        · rw [mem_primaryFacts_iff] at h
          obtain ⟨g', hg', hc⟩ := h
          rcases hc with hq | ⟨t', ht', hsig, hq⟩ | ⟨s', hs', hq⟩ | ⟨y', hy', hn, hq⟩ |
            ⟨e', he', hq⟩ <;> simp only [Prod.mk.injEq] at hq
          · exact absurd hq.1 (by decide)
          · exact absurd hq.1 (by decide)
          · exact absurd hq.1 (by decide)
          · first
            | exact absurd hq.1 (by decide)
            | (rw [hg] at hg'
               obtain rfl := Option.some_inj.mp hg'
               obtain rfl : y = y' := by simpa using hq.2
               simpa [isYearlyNotable] using hn)
          · exact absurd hq.1 (by decide)
        · exact absurd (kind_secondaryFactsK cfg st _ _ h) (by decide)
        · rcases kind_patternFactsK st _ _ h with hk | hk <;> exact absurd hk (by decide)
      · intro hcond
        apply (mem_selectContent_iff cfg st _).mpr
        first
        | (refine Or.inr (Or.inl ?_)
           rw [mem_primaryFacts_iff]
           refine ⟨g, hg, Or.inr (Or.inr (Or.inr (Or.inl ⟨y, hy, ?_, rfl⟩)))⟩
           simp only [isYearlyNotable, Bool.or_eq_true, decide_eq_true_eq]
           exact hcond)
        | (refine Or.inr (Or.inr (Or.inl ?_))
           rw [mem_primaryFacts_iff]
           refine ⟨g, hg, Or.inr (Or.inr (Or.inr (Or.inl ⟨y, hy, ?_, rfl⟩)))⟩
           simp only [isYearlyNotable, Bool.or_eq_true, decide_eq_true_eq]
           exact hcond)
    · constructor
      · rintro ⟨e, hmem⟩
        rcases (mem_selectContent_iff cfg st _).mp hmem with h | h | h | h | h
        · simp only [Prod.mk.injEq] at h
          exact absurd h.1 (by decide)
        · rw [mem_primaryFacts_iff] at h
          obtain ⟨g', hg', hc⟩ := h
          rcases hc with hq | ⟨t', ht', hsig, hq⟩ | ⟨s', hs', hq⟩ | ⟨y', hy', hn, hq⟩ |
            ⟨e', he', hq⟩ <;> simp only [Prod.mk.injEq] at hq
          · exact absurd hq.1 (by decide)
          · exact absurd hq.1 (by decide)
          · exact absurd hq.1 (by decide)
          · exact absurd hq.1 (by decide)
          · first
            | exact absurd hq.1 (by decide)
            | (rw [hg] at hg'
               obtain rfl := Option.some_inj.mp hg'
               simp [he'])
        · rw [mem_primaryFacts_iff] at h
          obtain ⟨g', hg', hc⟩ := h
          rcases hc with hq | ⟨t', ht', hsig, hq⟩ | ⟨s', hs', hq⟩ | ⟨y', hy', hn, hq⟩ |
            ⟨e', he', hq⟩ <;> simp only [Prod.mk.injEq] at hq
          · exact absurd hq.1 (by decide)
          · exact absurd hq.1 (by decide)
          · exact absurd hq.1 (by decide)
          · exact absurd hq.1 (by decide)
          · first
            | exact absurd hq.1 (by decide)
            | (rw [hg] at hg'
               obtain rfl := Option.some_inj.mp hg'
               simp [he'])
        · exact absurd (kind_secondaryFactsK cfg st _ _ h) (by decide)
        · rcases kind_patternFactsK st _ _ h with hk | hk <;> exact absurd hk (by decide)
      · intro hsome
        obtain ⟨e, he⟩ := Option.isSome_iff_exists.mp hsome
        refine ⟨e, (mem_selectContent_iff cfg st _).mpr ?_⟩
        first
        | (refine Or.inr (Or.inl ?_)
           rw [mem_primaryFacts_iff]
           exact ⟨g, hg, Or.inr (Or.inr (Or.inr (Or.inr ⟨e, he, rfl⟩)))⟩)
        | (refine Or.inr (Or.inr (Or.inl ?_))
           rw [mem_primaryFacts_iff]
           exact ⟨g, hg, Or.inr (Or.inr (Or.inr (Or.inr ⟨e, he, rfl⟩)))⟩)

/-- C6 witness: the policy evaluated on a concrete bundle. -/
theorem c6_witness :
    ("precipitation_summary", Payload.group gPrec0) ∈ selectContent cfgEmit0 stEmit0
    ∧ (∃ s, ("precipitation_seasonal", Payload.seasonal s) ∈ selectContent cfgEmit0 stEmit0) := by
  have h := (c6_select_content_policy cfgEmit0 stEmit0).2.2 "precipitation" (Or.inr rfl)
    gPrec0 (by decide)
  exact ⟨h.1, h.2.2.1.mpr (by decide)⟩

theorem idxmaxGo_spec (t : List ℚ) :
    ∀ (pre : List ℚ) (bi : Nat) (bv : ℚ),
      pre[bi]? = some bv →
      (∀ (j : Nat) (y : ℚ), pre[j]? = some y → y ≤ bv) →
      (∀ (j : Nat) (y : ℚ), j < bi → pre[j]? = some y → y < bv) →
      (pre ++ t)[(idxmaxGo t bi bv pre.length).1]? = some (idxmaxGo t bi bv pre.length).2
      ∧ (∀ (j : Nat) (y : ℚ), (pre ++ t)[j]? = some y → y ≤ (idxmaxGo t bi bv pre.length).2)
      ∧ (∀ (j : Nat) (y : ℚ), j < (idxmaxGo t bi bv pre.length).1 → (pre ++ t)[j]? = some y →
          y < (idxmaxGo t bi bv pre.length).2) := by
  induction t with
  | nil =>
    intro pre bi bv h1 h2 h3
    simp only [idxmaxGo, List.append_nil]
    exact ⟨h1, h2, h3⟩
  | cons x xs ih =>
    intro pre bi bv h1 h2 h3
    have hbi : bi < pre.length := by
      by_contra hcon
      rw [List.getElem?_eq_none (Nat.le_of_not_lt hcon)] at h1
      cases h1
    have hassoc : pre ++ x :: xs = (pre ++ [x]) ++ xs := by simp
    have hlen1 : (pre ++ [x]).length = pre.length + 1 := by simp
    by_cases hlt : bv < x
    · have hn1 : (pre ++ [x])[pre.length]? = some x := List.getElem?_concat_length pre x
      have hn2 : ∀ (j : Nat) (y : ℚ), (pre ++ [x])[j]? = some y → y ≤ x := by
        intro j y hj
        by_cases hjl : j < pre.length
        · rw [List.getElem?_append_left hjl] at hj
          exact le_of_lt (lt_of_le_of_lt (h2 j y hj) hlt)
        · by_cases hje : j = pre.length
          · subst hje
            rw [hn1] at hj
            exact le_of_eq (Option.some_inj.mp hj).symm
          · rw [List.getElem?_eq_none (by simp; omega)] at hj
            cases hj
      have hn3 : ∀ (j : Nat) (y : ℚ), j < pre.length → (pre ++ [x])[j]? = some y → y < x := by
        intro j y hjl hj
        rw [List.getElem?_append_left hjl] at hj
        exact lt_of_le_of_lt (h2 j y hj) hlt
      have hrec := ih (pre ++ [x]) pre.length x hn1 hn2 hn3
      rw [hlen1] at hrec
      simp only [idxmaxGo, if_pos hlt]
      rw [hassoc]
      exact hrec
    · have hk1 : (pre ++ [x])[bi]? = some bv := by
        rw [List.getElem?_append_left hbi]; exact h1
      have hk2 : ∀ (j : Nat) (y : ℚ), (pre ++ [x])[j]? = some y → y ≤ bv := by
        intro j y hj
        by_cases hjl : j < pre.length
        · rw [List.getElem?_append_left hjl] at hj
          exact h2 j y hj
        · by_cases hje : j = pre.length
          · subst hje
            rw [List.getElem?_concat_length] at hj
            rw [← Option.some_inj.mp hj]
            exact not_lt.mp hlt
          · rw [List.getElem?_eq_none (by simp; omega)] at hj
            cases hj
      have hk3 : ∀ (j : Nat) (y : ℚ), j < bi → (pre ++ [x])[j]? = some y → y < bv := by
        intro j y hjb hj
        rw [List.getElem?_append_left (lt_trans hjb hbi)] at hj
        exact h3 j y hjb hj
      have hrec := ih (pre ++ [x]) bi bv hk1 hk2 hk3
      rw [hlen1] at hrec
      simp only [idxmaxGo, if_neg hlt]
      rw [hassoc]
      exact hrec

theorem idxmaxL_spec (xs : List ℚ) (i : Nat) (v : ℚ) (h : idxmaxL xs = some (i, v)) :
    xs[i]? = some v
    ∧ (∀ (j : Nat) (y : ℚ), xs[j]? = some y → y ≤ v)
    ∧ (∀ (j : Nat) (y : ℚ), j < i → xs[j]? = some y → y < v) := by
  cases xs with
  | nil => cases h
  | cons x t =>
    have hx : ([x] : List ℚ)[0]? = some x := rfl
    have h2 : ∀ (j : Nat) (y : ℚ), ([x] : List ℚ)[j]? = some y → y ≤ x := by
      intro j y hj
      cases j with
      | zero => exact le_of_eq (Option.some_inj.mp hj).symm
      | succ n => cases hj
    have h3 : ∀ (j : Nat) (y : ℚ), j < 0 → ([x] : List ℚ)[j]? = some y → y < x := by
      intro j y hj
      omega
    have hrec := idxmaxGo_spec t [x] 0 x hx h2 h3
    simp only [List.length_singleton, List.singleton_append] at hrec
    simp only [idxmaxL] at h
    rw [Option.some_inj.mp h] at hrec
    exact hrec

theorem idxminGo_spec (t : List ℚ) :
    ∀ (pre : List ℚ) (bi : Nat) (bv : ℚ),
      pre[bi]? = some bv →
      (∀ (j : Nat) (y : ℚ), pre[j]? = some y → bv ≤ y) →
      (∀ (j : Nat) (y : ℚ), j < bi → pre[j]? = some y → bv < y) →
      (pre ++ t)[(idxminGo t bi bv pre.length).1]? = some (idxminGo t bi bv pre.length).2
      ∧ (∀ (j : Nat) (y : ℚ), (pre ++ t)[j]? = some y → (idxminGo t bi bv pre.length).2 ≤ y)
      ∧ (∀ (j : Nat) (y : ℚ), j < (idxminGo t bi bv pre.length).1 → (pre ++ t)[j]? = some y →
          (idxminGo t bi bv pre.length).2 < y) := by
  induction t with
  | nil =>
    intro pre bi bv h1 h2 h3
    simp only [idxminGo, List.append_nil]
    exact ⟨h1, h2, h3⟩
  | cons x xs ih =>
    intro pre bi bv h1 h2 h3
    have hbi : bi < pre.length := by
      by_contra hcon
      rw [List.getElem?_eq_none (Nat.le_of_not_lt hcon)] at h1
      cases h1
    have hassoc : pre ++ x :: xs = (pre ++ [x]) ++ xs := by simp
    have hlen1 : (pre ++ [x]).length = pre.length + 1 := by simp
    by_cases hlt : x < bv
    · have hn1 : (pre ++ [x])[pre.length]? = some x := List.getElem?_concat_length pre x
      have hn2 : ∀ (j : Nat) (y : ℚ), (pre ++ [x])[j]? = some y → x ≤ y := by
        intro j y hj
        by_cases hjl : j < pre.length
        · rw [List.getElem?_append_left hjl] at hj
          exact le_of_lt (lt_of_lt_of_le hlt (h2 j y hj))
        · by_cases hje : j = pre.length
          · subst hje
            rw [hn1] at hj
            exact le_of_eq (Option.some_inj.mp hj)
          · rw [List.getElem?_eq_none (by simp; omega)] at hj
            cases hj
      have hn3 : ∀ (j : Nat) (y : ℚ), j < pre.length → (pre ++ [x])[j]? = some y → x < y := by
        intro j y hjl hj
        rw [List.getElem?_append_left hjl] at hj
        exact lt_of_lt_of_le hlt (h2 j y hj)
      have hrec := ih (pre ++ [x]) pre.length x hn1 hn2 hn3
      rw [hlen1] at hrec
      simp only [idxminGo, if_pos hlt]
      rw [hassoc]
      exact hrec
    · have hk1 : (pre ++ [x])[bi]? = some bv := by
        rw [List.getElem?_append_left hbi]; exact h1
      have hk2 : ∀ (j : Nat) (y : ℚ), (pre ++ [x])[j]? = some y → bv ≤ y := by
        intro j y hj
        by_cases hjl : j < pre.length
        · rw [List.getElem?_append_left hjl] at hj
          exact h2 j y hj
        · by_cases hje : j = pre.length
          · subst hje
            rw [List.getElem?_concat_length] at hj
            rw [← Option.some_inj.mp hj]
            exact not_lt.mp hlt
          · rw [List.getElem?_eq_none (by simp; omega)] at hj
            cases hj
      have hk3 : ∀ (j : Nat) (y : ℚ), j < bi → (pre ++ [x])[j]? = some y → bv < y := by
        intro j y hjb hj
        rw [List.getElem?_append_left (lt_trans hjb hbi)] at hj
        exact h3 j y hjb hj
      have hrec := ih (pre ++ [x]) bi bv hk1 hk2 hk3
      rw [hlen1] at hrec
      simp only [idxminGo, if_neg hlt]
      rw [hassoc]
      exact hrec

theorem idxminL_spec (xs : List ℚ) (i : Nat) (v : ℚ) (h : idxminL xs = some (i, v)) :
    xs[i]? = some v
    ∧ (∀ (j : Nat) (y : ℚ), xs[j]? = some y → v ≤ y)
    ∧ (∀ (j : Nat) (y : ℚ), j < i → xs[j]? = some y → v < y) := by
  cases xs with
  | nil => cases h
  | cons x t =>
    have hx : ([x] : List ℚ)[0]? = some x := rfl
    have h2 : ∀ (j : Nat) (y : ℚ), ([x] : List ℚ)[j]? = some y → x ≤ y := by
      intro j y hj
      cases j with
      | zero => exact le_of_eq (Option.some_inj.mp hj)
      | succ n => cases hj
    have h3 : ∀ (j : Nat) (y : ℚ), j < 0 → ([x] : List ℚ)[j]? = some y → x < y := by
      intro j y hj
      omega
    have hrec := idxminGo_spec t [x] 0 x hx h2 h3
    simp only [List.length_singleton, List.singleton_append] at hrec
    simp only [idxminL] at h
    rw [Option.some_inj.mp h] at hrec
    exact hrec

/-- C7: when the resolved max column (first supporting column containing
max, else the primary) is present and non-empty, extremes.highest holds the
true maximum of that column over the whole table and the date of the first
row attaining it (strictly earlier rows are strictly smaller); dually for
extremes.lowest and the resolved min column. -/
theorem c7_extremes_consistency (df : DataFrame) (primary : String)
    (supporting : List String) (xsMax xsMin : List ℚ)
    (hmaxcol : dictGet df.cols (resolveMaxCol primary supporting) = some xsMax)
    (hmincol : dictGet df.cols (resolveMinCol primary supporting) = some xsMin)
    (hne : xsMax ≠ []) (hne2 : xsMin ≠ []) :
    ∃ ext : ExtremesA, identifyExtremes df primary supporting = some ext
      ∧ (∃ (i : Nat) (v : ℚ), ext.highest = some ⟨v, df.dates[i]?⟩
          ∧ xsMax[i]? = some v
          ∧ (∀ (j : Nat) (y : ℚ), xsMax[j]? = some y → y ≤ v)
          ∧ (∀ (j : Nat) (y : ℚ), j < i → xsMax[j]? = some y → y < v))
      ∧ (∃ (i : Nat) (v : ℚ), ext.lowest = some ⟨v, df.dates[i]?⟩
          ∧ xsMin[i]? = some v
          ∧ (∀ (j : Nat) (y : ℚ), xsMin[j]? = some y → v ≤ y)
          ∧ (∀ (j : Nat) (y : ℚ), j < i → xsMin[j]? = some y → v < y)) := by
  have hx : ∃ p : Nat × ℚ, idxmaxL xsMax = some p := by
    cases xsMax with
    | nil => exact absurd rfl hne
    | cons a t => exact ⟨_, rfl⟩
  have hn : ∃ p : Nat × ℚ, idxminL xsMin = some p := by
    cases xsMin with
    | nil => exact absurd rfl hne2
    | cons a t => exact ⟨_, rfl⟩
  obtain ⟨⟨mi, mv⟩, hmax⟩ := hx
  obtain ⟨⟨ni, nv⟩, hmin⟩ := hn
  obtain ⟨ha1, ha2, ha3⟩ := idxmaxL_spec xsMax mi mv hmax
  obtain ⟨hb1, hb2, hb3⟩ := idxminL_spec xsMin ni nv hmin
  refine ⟨⟨some ⟨mv, df.dates[mi]?⟩, some ⟨nv, df.dates[ni]?⟩⟩, ?_, ?_, ?_⟩
  · simp only [identifyExtremes, hmaxcol, hmincol, hmax, hmin, Option.map_some',
      Option.isNone_some, Bool.false_and, Bool.and_self]
    rfl
  · exact ⟨mi, mv, rfl, ha1, ha2, ha3⟩
  · exact ⟨ni, nv, rfl, hb1, hb2, hb3⟩

/-- C7 witness: a table whose max column attains its maximum twice; the
first occurrence (row 1) is selected. -/
theorem c7_witness :
    ∃ ext : ExtremesA,
      identifyExtremes ⟨[⟨2020, 1, 1, 1⟩, ⟨2020, 1, 2, 2⟩, ⟨2020, 1, 3, 3⟩],
        [("tMAX", [5, 7, 7]), ("t", [1, 2, 3])]⟩ "t" ["tMAX"] = some ext
      ∧ (∃ (i : Nat) (v : ℚ), ext.highest = some ⟨v,
            ([⟨2020, 1, 1, 1⟩, ⟨2020, 1, 2, 2⟩, ⟨2020, 1, 3, 3⟩] : List MyDate)[i]?⟩
          ∧ ([(5 : ℚ), 7, 7])[i]? = some v
          ∧ (∀ (j : Nat) (y : ℚ), ([(5 : ℚ), 7, 7])[j]? = some y → y ≤ v)
          ∧ (∀ (j : Nat) (y : ℚ), j < i → ([(5 : ℚ), 7, 7])[j]? = some y → y < v))
      ∧ (∃ (i : Nat) (v : ℚ), ext.lowest = some ⟨v,
            ([⟨2020, 1, 1, 1⟩, ⟨2020, 1, 2, 2⟩, ⟨2020, 1, 3, 3⟩] : List MyDate)[i]?⟩
          ∧ ([(1 : ℚ), 2, 3])[i]? = some v
          ∧ (∀ (j : Nat) (y : ℚ), ([(1 : ℚ), 2, 3])[j]? = some y → v ≤ y)
          ∧ (∀ (j : Nat) (y : ℚ), j < i → ([(1 : ℚ), 2, 3])[j]? = some y → v < y)) :=
  c7_extremes_consistency
    ⟨[⟨2020, 1, 1, 1⟩, ⟨2020, 1, 2, 2⟩, ⟨2020, 1, 3, 3⟩], [("tMAX", [5, 7, 7]), ("t", [1, 2, 3])]⟩
    "t" ["tMAX"] [5, 7, 7] [1, 2, 3] (by decide) (by decide) (by decide) (by decide)

theorem mem_map_fst_dictSet {α : Type} (d : List (String × α)) (k : String) (v : α)
    (x : String) : x ∈ (dictSet d k v).map Prod.fst ↔ x = k ∨ x ∈ d.map Prod.fst := by
  induction d with
  | nil => simp [dictSet]
  | cons p t ih =>
    by_cases hpk : p.1 == k
    · have hred : dictSet (p :: t) k v = (k, v) :: t := by simp [dictSet, hpk]
      rw [hred]
      simp only [List.map_cons, List.mem_cons, eq_of_beq hpk]
      tauto
    · simp only [dictSet, hpk, Bool.false_eq_true, if_false, List.map_cons, List.mem_cons, ih]
      tauto

theorem dictSet_keys_nodup {α : Type} (d : List (String × α)) (k : String) (v : α)
    (h : (d.map Prod.fst).Nodup) : ((dictSet d k v).map Prod.fst).Nodup := by
  induction d with
  | nil => simp [dictSet]
  | cons p t ih =>
    simp only [List.map_cons, List.nodup_cons] at h
    by_cases hpk : p.1 == k
    · simp only [dictSet, hpk, if_true, List.map_cons, List.nodup_cons]
      exact ⟨eq_of_beq hpk ▸ h.1, h.2⟩
    · simp only [dictSet, hpk, Bool.false_eq_true, if_false, List.map_cons, List.nodup_cons]
      refine ⟨?_, ih h.2⟩
      rw [mem_map_fst_dictSet]
      rintro (rfl | hmem)
      · exact hpk (by simp)
      · exact h.1 hmem

theorem dictSet_fresh {α : Type} (d : List (String × α)) (k : String) (v : α)
    (h : ∀ p ∈ d, p.1 ≠ k) : dictSet d k v = d ++ [(k, v)] := by
  induction d with
  | nil => rfl
  | cons p t ih =>
    have hpk : (p.1 == k) = false := beq_eq_false_iff_ne.mpr (h p (List.mem_cons_self p t))
    simp only [dictSet, hpk, Bool.false_eq_true, if_false, List.cons_append]
    rw [ih (fun q hq => h q (List.mem_cons_of_mem p hq))]

theorem corrDict_keys_nodup (df : DataFrame) (schema : List (String × GroupCfg))
    (results : List (String × GroupA)) :
    ((corrDict df schema results).map Prod.fst).Nodup := by
  unfold corrDict
  have go : ∀ (pl : List ((String × GroupCfg) × (String × GroupCfg)))
      (acc : List (String × CorrEntryA)), (acc.map Prod.fst).Nodup →
      ((pl.foldl (fun acc p =>
        match corrEntryOf df results p with
        | some e => dictSet acc e.1 e.2
        | none => acc) acc).map Prod.fst).Nodup := by
    intro pl
    induction pl with
    | nil => intro acc h; exact h
    | cons p t ih =>
      intro acc h
      simp only [List.foldl_cons]
      cases hc : corrEntryOf df results p with
      | none => exact ih acc h
      | some e => exact ih _ (dictSet_keys_nodup acc e.1 e.2 h)
  exact go _ [] (by simp)

theorem corrDict_eq_filterMap (df : DataFrame) (schema : List (String × GroupCfg))
    (results : List (String × GroupA))
    (hkeys : (((orderedPairs schema).filterMap (corrEntryOf df results)).map Prod.fst).Nodup) :
    corrDict df schema results = (orderedPairs schema).filterMap (corrEntryOf df results) := by
  unfold corrDict
  have go : ∀ (pl : List ((String × GroupCfg) × (String × GroupCfg)))
      (acc : List (String × CorrEntryA)),
      ((acc ++ pl.filterMap (corrEntryOf df results)).map Prod.fst).Nodup →
      pl.foldl (fun acc p =>
        match corrEntryOf df results p with
        | some e => dictSet acc e.1 e.2
        | none => acc) acc = acc ++ pl.filterMap (corrEntryOf df results) := by
    intro pl
    induction pl with
    | nil => intro acc _; simp
    | cons p t ih =>
      intro acc h
      simp only [List.foldl_cons]
      cases hc : corrEntryOf df results p with
      | none =>
        simp only [List.filterMap_cons, hc] at h ⊢
        exact ih acc h
      | some e =>
        simp only [List.filterMap_cons, hc] at h ⊢
        have hfresh : ∀ q ∈ acc, q.1 ≠ e.1 := by
          intro q hq
          rw [List.map_append] at h
          rw [List.nodup_append] at h
          intro hcontra
          exact h.2.2 (List.mem_map_of_mem Prod.fst hq)
            (by rw [hcontra]; exact List.mem_cons_self _ _)
        rw [dictSet_fresh acc e.1 e.2 hfresh]
        have hre : acc ++ [(e.1, e.2)] ++ t.filterMap (corrEntryOf df results)
            = acc ++ e :: t.filterMap (corrEntryOf df results) := by simp
        rw [ih (acc ++ [(e.1, e.2)]) (by rw [hre]; exact h), hre]
  exact go (orderedPairs schema) [] (by simpa using hkeys)

theorem zipWith_centered_comm (xm ym : ℚ) : ∀ (xs ys : List ℚ),
    List.zipWith (fun x y => (x - xm) * (y - ym)) xs ys
      = List.zipWith (fun y x => (y - ym) * (x - xm)) ys xs := by
  intro xs
  induction xs with
  | nil => intro ys; cases ys <;> rfl
  | cons x xt ih =>
    intro ys
    cases ys with
    | nil => rfl
    | cons y yt => simp [List.zipWith_cons_cons, ih yt, mul_comm]

theorem pearsonRep_symm (xs ys : List ℚ) : pearsonRep xs ys = pearsonRep ys xs := by
  simp only [pearsonRep]
  rw [zipWith_centered_comm (xs.sum / (xs.length : ℚ)) (ys.sum / (ys.length : ℚ)) xs ys]
  rw [mul_comm ((xs.map fun x => (x - xs.sum / (xs.length : ℚ)) ^ 2).sum)
    ((ys.map fun y => (y - ys.sum / (ys.length : ℚ)) ^ 2).sum)]

theorem corrEntryOf_eq_some_iff (df : DataFrame) (results : List (String × GroupA))
    (p : (String × GroupCfg) × (String × GroupCfg)) (e' : String × CorrEntryA) :
    corrEntryOf df results p = some e' ↔
      (dictGet results p.1.1).isSome = true ∧ (dictGet results p.2.1).isSome = true
      ∧ ∃ (xs ys : List ℚ) (r : PearsonRep),
          dictGet df.cols p.1.2.primary = some xs
          ∧ dictGet df.cols p.2.2.primary = some ys
          ∧ pearsonRep xs ys = some r
          ∧ pearsonStrong (some r) = true
          ∧ e' = (p.1.1 ++ "_and_" ++ p.2.1,
              CorrEntryA.mk r (if r.num < 0 then "inverse" else "direct")) := by
  unfold corrEntryOf
  by_cases h1 : (dictGet results p.1.1).isSome && (dictGet results p.2.1).isSome
  · rw [if_pos h1]
    rw [Bool.and_eq_true] at h1
    cases hx : dictGet df.cols p.1.2.primary with
    | none => simp [hx, h1]
    | some xs =>
      cases hy : dictGet df.cols p.2.2.primary with
      | none => simp [hx, hy, h1]
      | some ys =>
        cases hr : pearsonRep xs ys with
        | none => simp [hx, hy, hr, h1]
        | some r =>
          by_cases hs : pearsonStrong (some r) = true
          · simp only [hr, if_pos hs, h1.1, h1.2, true_and, hx, hy]
            constructor
            · intro he
              exact ⟨xs, ys, r, rfl, rfl, hr, hs, (Option.some_inj.mp he).symm⟩
            · rintro ⟨xs', ys', r', hxs', hys', hr', _, he⟩
              obtain rfl := Option.some_inj.mp hxs'
              obtain rfl := Option.some_inj.mp hys'
              rw [hr] at hr'
              obtain rfl := Option.some_inj.mp hr'
              rw [he]
          · simp only [hr, if_neg hs, h1.1, h1.2, true_and, hx, hy]
            constructor
            · intro he; cases he
            · rintro ⟨xs', ys', r', hxs', hys', hr', hstrong, he⟩
              obtain rfl := Option.some_inj.mp hxs'
              obtain rfl := Option.some_inj.mp hys'
              rw [hr] at hr'
              obtain rfl := Option.some_inj.mp hr'
              exact absurd hstrong hs
  · rw [if_neg h1]
    rw [Bool.and_eq_true] at h1
    constructor
    · intro he; cases he
    · rintro ⟨ha, hb, -⟩
      exact absurd ⟨ha, hb⟩ h1

/-- C8: the Pearson statistic the analyzer recomputes is symmetric in its
two columns, so the stored correlation for (A,B) equals the correlation of
(B,A); the correlations dict holds each key at most once, every stored
entry lives under the deterministic key a_and_b with a before b in schema
iteration order and carries the exact Pearson representation of its two
primary columns; and, for key-collision-free schemas, a present pair of
analyzed groups has an entry exactly when the absolute correlation exceeds
0.5. -/
theorem c8_correlation_pairs (df : DataFrame) (schema : List (String × GroupCfg))
    (results : List (String × GroupA)) :
    (∀ xs ys : List ℚ, pearsonRep xs ys = pearsonRep ys xs)
    ∧ ((corrDict df schema results).map Prod.fst).Nodup
    ∧ (∀ p e', corrEntryOf df results p = some e' →
        e'.1 = p.1.1 ++ "_and_" ++ p.2.1
        ∧ ∃ (xs ys : List ℚ) (r : PearsonRep),
            dictGet df.cols p.1.2.primary = some xs
            ∧ dictGet df.cols p.2.2.primary = some ys
            ∧ pearsonRep xs ys = some r
            ∧ e'.2.correlation = r
            ∧ pearsonStrong (some r) = true)
    ∧ ((((orderedPairs schema).filterMap
          (corrEntryOf df results)).map Prod.fst).Nodup →
        ∀ (p : (String × GroupCfg) × (String × GroupCfg)), p ∈ orderedPairs schema →
        (∀ q ∈ orderedPairs schema,
            q.1.1 ++ "_and_" ++ q.2.1 = p.1.1 ++ "_and_" ++ p.2.1 → q = p) →
        ∀ e : CorrEntryA,
          ((p.1.1 ++ "_and_" ++ p.2.1, e) ∈ corrDict df schema results
            ↔ corrEntryOf df results p = some (p.1.1 ++ "_and_" ++ p.2.1, e)))
    ∧ (∀ (p : (String × GroupCfg) × (String × GroupCfg)) (xs ys : List ℚ),
        (dictGet results p.1.1).isSome = true → (dictGet results p.2.1).isSome = true →
        dictGet df.cols p.1.2.primary = some xs → dictGet df.cols p.2.2.primary = some ys →
        ((∃ e', corrEntryOf df results p = some e')
          ↔ pearsonStrong (pearsonRep xs ys) = true)) := by
  refine ⟨pearsonRep_symm, corrDict_keys_nodup df schema results, ?_, ?_, ?_⟩
  · intro p e' he
    obtain ⟨_, _, xs, ys, r, hxs, hys, hr, hs, heq⟩ :=
      (corrEntryOf_eq_some_iff df results p e').mp he
    subst heq
    exact ⟨rfl, xs, ys, r, hxs, hys, hr, rfl, hs⟩
  · intro hkeys p hp hinj e
    rw [corrDict_eq_filterMap df schema results hkeys]
    constructor
    · intro hmem
      obtain ⟨q, hq, hcq⟩ := List.mem_filterMap.mp hmem
      have hkey : (p.1.1 ++ "_and_" ++ p.2.1 : String) = q.1.1 ++ "_and_" ++ q.2.1 := by
        obtain ⟨_, _, _, _, _, _, _, _, _, heq⟩ :=
          (corrEntryOf_eq_some_iff df results q _).mp hcq
        exact congrArg Prod.fst heq
      obtain rfl := hinj q hq hkey.symm
      exact hcq
    · intro hce
      exact List.mem_filterMap.mpr ⟨p, hp, hce⟩
  · intro p xs ys h1 h2 hxs hys
    cases hr : pearsonRep xs ys with
    | none =>
      simp only [pearsonStrong]
      constructor
      · rintro ⟨e', he⟩
        obtain ⟨_, _, xs', ys', r, hxs', hys', hr', _, _⟩ :=
          (corrEntryOf_eq_some_iff df results p e').mp he
        rw [hxs] at hxs'
        obtain rfl := Option.some_inj.mp hxs'
        rw [hys] at hys'
        obtain rfl := Option.some_inj.mp hys'
        rw [hr] at hr'
        cases hr'
      · intro hfalse; cases hfalse
    | some r =>
      by_cases hs : pearsonStrong (some r) = true
      · constructor
        · intro _; exact hs
        · intro _
          refine ⟨(p.1.1 ++ "_and_" ++ p.2.1,
            CorrEntryA.mk r (if r.num < 0 then "inverse" else "direct")), ?_⟩
          rw [corrEntryOf_eq_some_iff]
          exact ⟨h1, h2, xs, ys, r, hxs, hys, hr, hs, rfl⟩
      · constructor
        · rintro ⟨e', he⟩
          obtain ⟨_, _, xs', ys', r', hxs', hys', hr', hstrong, _⟩ :=
            (corrEntryOf_eq_some_iff df results p e').mp he
          rw [hxs] at hxs'
          obtain rfl := Option.some_inj.mp hxs'
          rw [hys] at hys'
          obtain rfl := Option.some_inj.mp hys'
          rw [hr] at hr'
          obtain rfl := Option.some_inj.mp hr'
          exact absurd hstrong hs
        · intro hc; exact absurd hc hs

unseal Rat.add Rat.mul Rat.sub Rat.inv in
/-- C8 witness: the entry-iff-strong-correlation equivalence applied to a
concrete two-group table whose columns are perfectly correlated. -/
theorem c8_witness :
    ((∃ e', corrEntryOf
        ⟨[⟨2020, 1, 1, 1⟩, ⟨2020, 1, 2, 2⟩, ⟨2020, 1, 3, 3⟩],
          [("t", [0, 1, 2]), ("p", [0, 2, 4])]⟩
        [("temperature", ⟨⟨none, none, none, none, CVA.zero⟩, none, ⟨0, 0, "decreasing"⟩,
            none, none, none, none⟩),
         ("precipitation", ⟨⟨none, none, none, none, CVA.zero⟩, none, ⟨0, 0, "decreasing"⟩,
            none, none, none, none⟩)]
        (("temperature", ⟨"t", [], []⟩), ("precipitation", ⟨"p", [], []⟩)) = some e')
      ↔ pearsonStrong (pearsonRep [0, 1, 2] [0, 2, 4]) = true)
    ∧ pearsonStrong (pearsonRep [(0 : ℚ), 1, 2] [0, 2, 4]) = true := by
  constructor
  · exact (c8_correlation_pairs
      ⟨[⟨2020, 1, 1, 1⟩, ⟨2020, 1, 2, 2⟩, ⟨2020, 1, 3, 3⟩],
        [("t", [0, 1, 2]), ("p", [0, 2, 4])]⟩
      [("temperature", ⟨"t", [], []⟩), ("precipitation", ⟨"p", [], []⟩)]
      [("temperature", ⟨⟨none, none, none, none, CVA.zero⟩, none, ⟨0, 0, "decreasing"⟩,
          none, none, none, none⟩),
       ("precipitation", ⟨⟨none, none, none, none, CVA.zero⟩, none, ⟨0, 0, "decreasing"⟩,
          none, none, none, none⟩)]).2.2.2.2
      (("temperature", ⟨"t", [], []⟩), ("precipitation", ⟨"p", [], []⟩))
      [0, 1, 2] [0, 2, 4] (by decide) (by decide) (by decide) (by decide)
  · decide
